import Mathlib

/-
Verification of the Session Persona Orchestrator of the OMANI Therapist Voice
backend (`backend/config/therapy_agent_manager.py`) and its therapeutic tool
handlers (`backend/tools/*.py`).

The Python source is shallowly embedded: each mutating method becomes a pure
Lean function from an explicit state record to a new state record plus its
return value.  Python dictionaries whose keys are dynamic are embedded as
association lists of `String × PyVal`; dictionaries with a fixed key set
(such as `clinical_state` after `handle_crisis_escalation`) are embedded as
structures.  Timestamps are threaded as explicit `now` parameters since real
clock time is not representable.  Awaited sub-procedures that touch only
external collaborators (WebSocket broadcasts, the remote LLM) have no local
state effect and are embedded as events or dropped, as noted at each site.
-/

namespace OmaniTherapist

/-- Python `str.lower()` restricted to the character-wise case mapping.  The
keyword tables of the source are all lower-case ASCII or (caseless) Arabic,
for which this agrees with CPython. -/
def pyLower (s : String) : String := String.mk (s.data.map Char.toLower)

/-- `charsPrefix needle hay` is true when `needle` is a prefix of `hay`. -/
def charsPrefix : List Char → List Char → Bool
  | [], _ => true
  | _ :: _, [] => false
  | a :: as, b :: bs => a == b && charsPrefix as bs

/-- `charsInfix needle hay` is true when `needle` occurs contiguously in `hay`. -/
def charsInfix (needle : List Char) : List Char → Bool
  | [] => charsPrefix needle []
  | b :: bs => charsPrefix needle (b :: bs) || charsInfix needle bs

/-- Python's substring test `needle in hay`. -/
def strContains (hay needle : String) : Bool := charsInfix needle.data hay.data

/-- Python `", ".join(xs)`. -/
def joinComma (xs : List String) : String := String.intercalate ", " xs

/-- A dynamically typed Python value, restricted to the value shapes the
embedded dictionaries actually hold. -/
inductive PyVal where
  | vstr (s : String)
  | vbool (b : Bool)
  | vint (n : Int)
deriving DecidableEq, Repr

/-- Python truthiness for `PyVal`. -/
def PyVal.truthy : PyVal → Bool
  | .vstr s => !(s == "")
  | .vbool b => b
  | .vint n => !(n == 0)

/-- A Python `dict` with string keys, as an association list in insertion
order (Python dicts preserve insertion order). -/
abbrev PyDict := List (String × PyVal)

/-- Python `d.get(k)` (`none` when the key is absent). -/
def dictGet (d : PyDict) (k : String) : Option PyVal :=
  (d.find? (fun p => p.1 == k)).map (fun p => p.2)

/-- Python `d[k] = v`: overwrite in place, or append preserving insertion
order. -/
def dictInsert (d : PyDict) (k : String) (v : PyVal) : PyDict :=
  if d.any (fun p => p.1 == k) then
    d.map (fun p => if p.1 == k then (k, v) else p)
  else
    d ++ [(k, v)]

/-- Python `d.update(u)`. -/
def dictUpdate (d u : PyDict) : PyDict :=
  u.foldl (fun acc p => dictInsert acc p.1 p.2) d

/-- Python truthiness of an optional dict argument (`None` and `{}` are both
falsy). -/
def optDictTruthy : Option PyDict → Bool
  | none => false
  | some d => !d.isEmpty

/-- Dict entries surviving Python's
`{k: v for k, v in d.items() if k not in dropped}`. -/
def dictDropKeys (d : PyDict) (dropped : List String) : PyDict :=
  d.filter (fun p => !(dropped.contains p.1))

/-
## Persona orchestrator: `TherapyAgentManager`
(`backend/config/therapy_agent_manager.py`)
-/

/-- The manager's `clinical_state` dict.  It starts as `{}` and the only
writer inside the manager is `handle_crisis_escalation`, which merges exactly
these four keys; `Python None`/missing reads are the `false`/`none`
defaults. -/
structure ClinicalState where
  crisis_active : Bool := false
  crisis_type : Option String := none
  crisis_data : Option PyDict := none
  crisis_timestamp : Option String := none
deriving DecidableEq, Repr

/-- One entry of `agent_history` as built in `switch_agent`. -/
structure SwitchRecord where
  timestamp : String
  from_agent : String
  to_agent : String
  reason : String
  cultural_context : PyDict
  clinical_state : ClinicalState
deriving DecidableEq, Repr

/-- The mutable state of one `TherapyAgentManager` instance.  `agents` is the
list of registered agent names in registration order (the per-agent prompt
text and tool definitions are opaque payloads the verified properties never
inspect; the per-agent tool-instance key sets appear separately in
`handle_function_call`). -/
structure ManagerState where
  current_agent : String := "general_therapy"
  agents : List String := []
  agent_history : List SwitchRecord := []
  cultural_context : PyDict := []
  clinical_state : ClinicalState := {}
deriving DecidableEq, Repr

/-- Side effects of `switch_agent` in program order: the three local-state
commits and the awaited `llm_recreate_callback` invocation (with its
success/failure outcome). -/
inductive MgrEvent where
  | historyAppend
  | culturalMerge
  | activeSet (agent : String)
  | remoteRecreate (ok : Bool)
deriving DecidableEq, Repr

/-- Behaviour of the bound `llm_recreate_callback` environment: unset, or an
await that returns, or an await that raises (the source catches and logs the
exception). -/
inductive CbMode where
  | absent
  | ok
  | raises
deriving DecidableEq, Repr

/-- `TherapyAgentManager._generate_agent_switch_message`. -/
def generate_agent_switch_message (from_agent to_agent reason : String)
    (cultural_context : Option PyDict) : String :=
  let agent_descriptions : PyDict :=
    [("general_therapy", .vstr "your primary therapist"),
     ("crisis_intervention", .vstr "crisis intervention specialist"),
     ("cbt_specialist", .vstr "cognitive behavioral therapy specialist")]
  let _from_desc := (dictGet agent_descriptions from_agent).getD (.vstr from_agent)
  let to_desc := match (dictGet agent_descriptions to_agent).getD (.vstr to_agent) with
    | .vstr s => s
    | _ => to_agent
  let cc := cultural_context.getD []
  let base1 :=
    if optDictTruthy cultural_context
        && ((dictGet cc "preferred_language").getD (.vstr "") == PyVal.vstr "arabic") then
      "سأقوم بتحويلك إلى " ++ to_desc ++ " للحصول على الدعم المتخصص."
        ++ "\nI\x27m connecting you with " ++ to_desc ++ " for specialized support."
    else
      "I\x27m connecting you with " ++ to_desc ++ " for specialized support."
  let base2 :=
    if !(reason == "") then base1 ++ "\n\nReason for this change: " ++ reason else base1
  let religious :=
    optDictTruthy cultural_context
      && (((dictGet cc "religious_considerations").map PyVal.truthy).getD false)
  let base3 :=
    if religious then
      base2 ++ "\n\nإن شاء الله، ستجد الدعم المناسب مع هذا التخصص."
        ++ "\nInsha\x27Allah, you will find the appropriate support with this specialization."
    else base2
  if to_agent == "crisis_intervention" then
    base3 ++ "\n\n🚨 Crisis support activated. Your safety is the priority."
      ++ "\nأنت لست وحدك. نحن هنا لمساعدتك. (You are not alone. We are here to help you.)"
  else if to_agent == "cbt_specialist" then
    let base4 := base3 ++ "\n\n🧠 CBT specialist ready to help with thought patterns and coping strategies."
    if religious then
      base4 ++ "\nWe\x27ll integrate Islamic principles with evidence-based therapy techniques."
    else base4
  else if to_agent == "general_therapy" then
    base3 ++ "\n\n💬 Back to general therapeutic support for comprehensive care."
  else base3

/-- `TherapyAgentManager.switch_agent`.  Returns the new state, the returned
message, and the side-effect trace.  The local bookkeeping (history append,
cultural-context merge, active-agent assignment) is performed before the
`llm_recreate_callback` await, exactly as in the source; a raising callback is
caught and logged there, with no compensation code. -/
def switch_agent (st : ManagerState) (target_agent reason : String)
    (cultural_context : Option PyDict) (cb : CbMode) (now : String) :
    ManagerState × String × List MgrEvent :=
  if !(st.agents.contains target_agent) then
    (st,
     "Therapeutic agent \x27" ++ target_agent ++ "\x27 not available. Available: "
       ++ joinComma st.agents,
     [])
  else if target_agent == st.current_agent then
    (st, "Already using " ++ target_agent ++ " agent.", [])
  else
    let switch_record : SwitchRecord :=
      { timestamp := now
        from_agent := st.current_agent
        to_agent := target_agent
        reason := reason
        cultural_context := cultural_context.getD []
        clinical_state := st.clinical_state }
    let st1 := { st with agent_history := st.agent_history ++ [switch_record] }
    let merged := optDictTruthy cultural_context
    let st2 :=
      if merged then
        { st1 with cultural_context := dictUpdate st1.cultural_context (cultural_context.getD []) }
      else st1
    let previous_agent := st.current_agent
    let st3 := { st2 with current_agent := target_agent }
    let commit_events :=
      [MgrEvent.historyAppend] ++ (if merged then [MgrEvent.culturalMerge] else [])
        ++ [MgrEvent.activeSet target_agent]
    let callback_events : List MgrEvent :=
      match cb with
      | .absent => []
      | .ok => [.remoteRecreate true]
      | .raises => [.remoteRecreate false]
    (st3,
     generate_agent_switch_message previous_agent target_agent reason cultural_context,
     commit_events ++ callback_events)

/-- `TherapyAgentManager.handle_crisis_escalation`. -/
def handle_crisis_escalation (st : ManagerState) (crisis_type : String)
    (crisis_data : PyDict) (cb : CbMode) (now : String) :
    ManagerState × String × List MgrEvent :=
  let st1 :=
    { st with
      clinical_state :=
        { st.clinical_state with
          crisis_active := true
          crisis_type := some crisis_type
          crisis_data := some crisis_data
          crisis_timestamp := some now } }
  if !(st1.current_agent == "crisis_intervention") then
    switch_agent st1 "crisis_intervention" ("Crisis escalation: " ++ crisis_type)
      (some st1.cultural_context) cb now
  else
    (st1, "Crisis intervention agent already active and handling the situation.", [])

/-- Crisis keyword table of `TherapyAgentManager.get_recommended_agent`. -/
def recommendation_crisis_keywords : List String :=
  ["suicide", "kill myself", "end it all", "hurt myself", "انتحار", "اقتل نفسي"]

/-- Anxiety keyword table of `TherapyAgentManager.get_recommended_agent`. -/
def anxiety_keywords : List String :=
  ["panic", "anxiety", "worried", "stressed", "overthinking", "قلق", "متوتر", "خايف"]

/-- Cognitive keyword table of `TherapyAgentManager.get_recommended_agent`. -/
def cognitive_keywords : List String :=
  ["thoughts", "thinking", "can\x27t stop", "ruminating", "negative thoughts", "أفكار"]

/-- `TherapyAgentManager.get_recommended_agent` (the `None`/empty guard is the
`Option`/empty-string case). -/
def get_recommended_agent (user_input : Option String) (current_state : ClinicalState) :
    String :=
  match user_input with
  | none => "general_therapy"
  | some input =>
    if input == "" then "general_therapy"
    else
      let input_lower := pyLower input
      if recommendation_crisis_keywords.any (fun k => strContains input_lower k) then
        "crisis_intervention"
      else if anxiety_keywords.any (fun k => strContains input_lower k) then
        if current_state.crisis_active then "crisis_intervention" else "cbt_specialist"
      else if cognitive_keywords.any (fun k => strContains input_lower k) then
        "cbt_specialist"
      else
        "general_therapy"

/-
## Shared tool-handler base: `BaseTool` (`backend/tools/base_tool.py`)
-/

/-- The mutable attributes every tool inherits from `BaseTool`: the three
clinical safety flags and the append-only `session_clinical_log`.  Log
entries are represented by their `action` label; the remaining entry fields
(timestamps, detail payloads, session metadata) are constant decoration no
verified property inspects. -/
structure BaseFlags where
  crisis_detected : Bool := false
  emergency_escalation_needed : Bool := false
  professional_referral_suggested : Bool := false
  session_clinical_log : List String := []
deriving DecidableEq, Repr

/-- `BaseTool.validate_action`. -/
def validate_action (action : String) (valid_actions : List String) : Bool :=
  valid_actions.contains action

/-- `BaseTool.log_clinical_action`: appends to the session clinical log.  The
`send_client_command` broadcasts it performs are fire-and-forget WebSocket
writes with no local state effect. -/
def log_clinical_action (b : BaseFlags) (action : String) : BaseFlags :=
  { b with session_clinical_log := b.session_clinical_log ++ [action] }

/-- `BaseTool.trigger_emergency_protocol`: sets
`emergency_escalation_needed` and logs `emergency_protocol_activated`. -/
def trigger_emergency_protocol (b : BaseFlags) : BaseFlags :=
  log_clinical_action { b with emergency_escalation_needed := true }
    "emergency_protocol_activated"

/-- `BaseTool.format_response_culturally`. -/
def format_response_culturally (response : String)
    (emotional_tone : String := "supportive") : String :=
  let pfx :=
    if emotional_tone == "supportive" then "الله يعطيك القوة، "
    else if emotional_tone == "encouraging" then "إن شاء الله كل شيء سيكون بخير، "
    else "أفهم مشاعرك، "
  pfx ++ response

/-- The crisis keyword table of `BaseTool.check_crisis_indicators`. -/
def crisis_keywords : List String :=
  ["suicide", "kill myself", "end it all", "no point living", "hurt myself",
   "overdose", "jump", "cut myself", "die", "death", "can\x27t go on",
   "better off dead", "want to disappear", "end my life", "not worth living",
   "انتحار", "اقتل نفسي", "لا يوجد امل", "اؤذي نفسي", "اموت",
   "جرعة زائدة", "اقفز", "اجرح نفسي", "لا استطيع المتابعة", "اريد ان اختفي",
   "انهي حياتي", "لا استحق الحياة", "تعبت من الحياة", "ما فيه فايدة",
   "خلاص تعبت", "ما عاد فيني", "انطفيت", "مليت من الحياة",
   "ودي اروح", "تعبت من كل شي", "ما اقدر اكمل", "خلاص كفيت",
   "حياتي ما لها معنى", "مو قادر", "تعبان نفسياً مره",
   "الله يا خذني", "ريحني يا رب", "تعبت يا رب", "ما عاد لي صبر",
   "يا ليتني ما انولدت", "ودي الموت", "الموت ارحم",
   "ما عاد عندي امل", "خلاص انكسرت", "روحي تعبانة", "قلبي مات",
   "ما اقدر احتمل", "مو قادر على شي", "نفسيتي خربت خلاص"]

/-- `BaseTool.check_crisis_indicators`: empty input matches nothing; on the
first keyword contained in the lowered input, sets `crisis_detected` and logs
`crisis_indicator_detected`. -/
def check_crisis_indicators (b : BaseFlags) (user_input : String) :
    BaseFlags × Bool :=
  if user_input == "" then (b, false)
  else
    let user_lower := pyLower user_input
    match crisis_keywords.find? (fun k => strContains user_lower k) with
    | some _ =>
      (log_clinical_action { b with crisis_detected := true }
         "crisis_indicator_detected",
       true)
    | none => (b, false)

/-- Spec-side formulation of "a registered crisis keyword (English or Arabic)
occurs in the text": some table entry is a substring of the lowered, nonempty
input. -/
def crisisKeywordPresent (input : String) : Bool :=
  !(input == "") && crisis_keywords.any (fun k => strContains (pyLower input) k)

/-
## Crisis handler: `CrisisDetectionTool`
(`backend/tools/crisis_detection_tool.py`)
-/

/-- The `clinical_data["risk_assessment"]` record stored by
`_assess_suicide_risk`. -/
structure RiskAssessment where
  risk_level : String
  risk_score : Nat
  factors : List String
  crisis_indicators_detected : Bool
deriving DecidableEq, Repr

/-- The mutable state of one `CrisisDetectionTool` instance (its
`BaseTool` part plus the crisis tracking attributes of `__init__`;
`clinical_data["risk_assessment"]` is the `risk_assessment` field). -/
structure CrisisToolState where
  base : BaseFlags := {}
  current_risk_level : String := "low"
  crisis_indicators : List String := []
  safety_plan_created : Bool := false
  emergency_contacts_available : Bool := false
  risk_assessment : Option RiskAssessment := none
deriving DecidableEq, Repr

/-- The allow-list of `CrisisDetectionTool.execute`. -/
def crisis_valid_actions : List String :=
  ["assess_risk", "monitor_indicators", "create_safety_plan",
   "escalate_emergency", "provide_immediate_support", "activate_cultural_protocols"]

/-- High-risk factor table of `_assess_suicide_risk`. -/
def high_risk_factors : List String :=
  ["previous_attempts", "substance_abuse", "social_isolation",
   "recent_loss", "access_to_means", "specific_plan"]

/-- Moderate-risk factor table of `_assess_suicide_risk`. -/
def moderate_risk_factors : List String :=
  ["hopelessness", "depression", "anxiety", "family_conflict",
   "financial_stress", "health_problems"]

/-- The `risk_score` loop of `_assess_suicide_risk`: +3 per high-risk factor,
+1 per moderate-risk factor (`elif`), 0 otherwise. -/
def riskScore (risk_factors : List String) : Nat :=
  risk_factors.foldl
    (fun acc factor =>
      if high_risk_factors.contains factor then acc + 3
      else if moderate_risk_factors.contains factor then acc + 1
      else acc)
    0

/-- The fixed bilingual emergency banner returned by
`CrisisDetectionTool._escalate_emergency`.  Its literal text (a constant
triple-quoted block of hotline numbers and religious comfort no verified
property inspects) is abbreviated to its header line. -/
def emergency_message : String :=
  "🚨 EMERGENCY PROTOCOL ACTIVATED 🚨"

/-- `CrisisDetectionTool._escalate_emergency`: triggers the emergency
protocol (flag plus log) and returns the emergency banner.  The
`send_client_command` broadcast has no local state effect. -/
def escalate_emergency (st : CrisisToolState) (_urgency_level : String)
    (_risk_factors : List String) : CrisisToolState × String :=
  ({ st with base := trigger_emergency_protocol st.base }, emergency_message)

/-- `CrisisDetectionTool._assess_suicide_risk`. -/
def assess_suicide_risk (st : CrisisToolState) (user_input : String)
    (risk_factors : List String) : CrisisToolState × String :=
  let checked := check_crisis_indicators st.base user_input
  let crisis_detected := checked.2
  let risk_score := riskScore risk_factors
  let level :=
    if 6 ≤ risk_score ∨ crisis_detected = true then "imminent"
    else if 4 ≤ risk_score then "high"
    else if 2 ≤ risk_score then "moderate"
    else "low"
  let st1 :=
    { st with
      base := checked.1
      current_risk_level := level
      risk_assessment :=
        some { risk_level := level, risk_score := risk_score,
               factors := risk_factors, crisis_indicators_detected := crisis_detected } }
  let st2 :=
    if level == "imminent" then (escalate_emergency st1 "imminent" risk_factors).1
    else st1
  (st2,
   format_response_culturally
     ("Risk assessment completed. Risk level: " ++ level ++ ". "
       ++ (if level == "high" ∨ level == "imminent" then
             "Immediate intervention protocols activated."
           else "Monitoring and support initiated.")))

/-- The keyword arguments `CrisisDetectionTool.execute` extracts from
`kwargs`, with their `.get` defaults. -/
structure CrisisKwargs where
  user_input : String := ""
  risk_factors : List String := []
  cultural_context : PyDict := []
  urgency_level : String := "low"

/-- The four private procedures of `CrisisDetectionTool` that no verified
claim constrains (`_monitor_crisis_indicators`, `_create_safety_plan`,
`_provide_immediate_support`, `_activate_cultural_protocols` — the first and
third are built on `re.search`, an external primitive).  `execute` is
parameterised over them, so every theorem about `execute` holds for each
instantiation. -/
structure CrisisBranches where
  monitor_crisis_indicators : CrisisToolState → String → CrisisToolState × String
  create_safety_plan : CrisisToolState → PyDict → CrisisToolState × String
  provide_immediate_support : CrisisToolState → String → PyDict → CrisisToolState × String
  activate_cultural_protocols : CrisisToolState → PyDict → CrisisToolState × String

/-- `CrisisDetectionTool.execute`: validate against the allow-list (returning
the invalid-action report before any state effect), log the action, then
dispatch. -/
def CrisisDetectionTool.execute (br : CrisisBranches) (st : CrisisToolState)
    (action : String) (kw : CrisisKwargs) : CrisisToolState × String :=
  if !(validate_action action crisis_valid_actions) then
    (st, "Invalid crisis action. Use: " ++ joinComma crisis_valid_actions)
  else
    let st1 := { st with base := log_clinical_action st.base ("crisis_detection_" ++ action) }
    if action == "assess_risk" then
      assess_suicide_risk st1 kw.user_input kw.risk_factors
    else if action == "monitor_indicators" then
      br.monitor_crisis_indicators st1 kw.user_input
    else if action == "create_safety_plan" then
      br.create_safety_plan st1 kw.cultural_context
    else if action == "escalate_emergency" then
      escalate_emergency st1 kw.urgency_level kw.risk_factors
    else if action == "provide_immediate_support" then
      br.provide_immediate_support st1 kw.user_input kw.cultural_context
    else
      br.activate_cultural_protocols st1 kw.cultural_context

theorem contains_high_not_moderate (f : String)
    (h : high_risk_factors.contains f = true) :
    moderate_risk_factors.contains f = false := by
  have h2 : f ∈ high_risk_factors := by simpa using h
  fin_cases h2 <;> decide

theorem riskScore_foldl (l : List String) (acc : Nat) :
    l.foldl
        (fun acc factor =>
          if high_risk_factors.contains factor then acc + 3
          else if moderate_risk_factors.contains factor then acc + 1
          else acc)
        acc
      = acc + 3 * l.countP (fun f => high_risk_factors.contains f)
          + l.countP (fun f => moderate_risk_factors.contains f) := by
  induction l generalizing acc with
  | nil => simp
  | cons f rest ih =>
    simp only [List.foldl_cons, List.countP_cons]
    rw [ih]
    by_cases h1 : high_risk_factors.contains f = true
    · have h1m : f ∈ high_risk_factors := by simpa using h1
      have h2m : f ∉ moderate_risk_factors := by
        simpa using contains_high_not_moderate f h1
      simp [h1m, h2m] <;> omega
    · have h1m : f ∉ high_risk_factors := by simpa using h1
      by_cases h3 : moderate_risk_factors.contains f = true
      · have h3m : f ∈ moderate_risk_factors := by simpa using h3
        simp [h1m, h3m] <;> omega
      · have h3m : f ∉ moderate_risk_factors := by simpa using h3
        simp [h1m, h3m] <;> omega

theorem riskScore_eq_weighted_counts (factors : List String) :
    riskScore factors
      = 3 * factors.countP (fun f => high_risk_factors.contains f)
          + factors.countP (fun f => moderate_risk_factors.contains f) := by
  unfold riskScore
  rw [riskScore_foldl]
  omega

theorem check_crisis_indicators_snd (b : BaseFlags) (input : String) :
    (check_crisis_indicators b input).2 = crisisKeywordPresent input := by
  unfold check_crisis_indicators crisisKeywordPresent
  by_cases he : (input == "") = true
  · simp [he]
  · have he2 : (input == "") = false := by simpa using he
    rcases hfind : crisis_keywords.find? (fun k => strContains (pyLower input) k) with _ | k
    · have hall := List.find?_eq_none.mp hfind
      have hany : crisis_keywords.any (fun k => strContains (pyLower input) k) = false := by
        rw [List.any_eq_false]
        intro x hx
        simpa using hall x hx
      simp [he2, hfind, hany]
    · have hany : crisis_keywords.any (fun k => strContains (pyLower input) k) = true := by
        rw [List.any_eq_true]
        exact ⟨k, List.mem_of_find?_eq_some hfind, by simpa using List.find?_some hfind⟩
      simp [he2, hfind, hany]

theorem check_crisis_indicators_fst_flag (b : BaseFlags) (input : String) :
    (check_crisis_indicators b input).1.crisis_detected
      = (b.crisis_detected || (check_crisis_indicators b input).2) := by
  unfold check_crisis_indicators
  by_cases he : (input == "") = true
  · simp [he]
  · have he2 : (input == "") = false := by simpa using he
    rcases hfind : crisis_keywords.find? (fun k => strContains (pyLower input) k) with _ | k <;>
      simp [he2, hfind, log_clinical_action]

theorem assess_current_risk_level (st : CrisisToolState) (input : String)
    (factors : List String) :
    (assess_suicide_risk st input factors).1.current_risk_level
      = (if 6 ≤ riskScore factors ∨ crisisKeywordPresent input = true then "imminent"
         else if 4 ≤ riskScore factors then "high"
         else if 2 ≤ riskScore factors then "moderate"
         else "low") := by
  unfold assess_suicide_risk
  rw [← check_crisis_indicators_snd st.base input]
  by_cases hA : 6 ≤ riskScore factors ∨ (check_crisis_indicators st.base input).2 = true
  · simp [hA, escalate_emergency]
  · by_cases h4 : 4 ≤ riskScore factors
    · simp [hA, h4]
    · by_cases h2 : 2 ≤ riskScore factors
      · simp [hA, h4, h2]
      · simp [hA, h4, h2]

theorem assess_imminent_base (st : CrisisToolState) (input : String)
    (factors : List String)
    (h : 6 ≤ riskScore factors ∨ crisisKeywordPresent input = true) :
    (assess_suicide_risk st input factors).1.base
      = trigger_emergency_protocol (check_crisis_indicators st.base input).1 := by
  unfold assess_suicide_risk
  rw [← check_crisis_indicators_snd st.base input] at h
  simp [h, escalate_emergency]

theorem assess_crisis_detected_flag (st : CrisisToolState) (input : String)
    (factors : List String) :
    (assess_suicide_risk st input factors).1.base.crisis_detected
      = (st.base.crisis_detected || crisisKeywordPresent input) := by
  rw [← check_crisis_indicators_snd st.base input,
    ← check_crisis_indicators_fst_flag st.base input]
  unfold assess_suicide_risk
  by_cases hA : 6 ≤ riskScore factors ∨ (check_crisis_indicators st.base input).2 = true
  · simp [hA, escalate_emergency, trigger_emergency_protocol, log_clinical_action]
  · by_cases h4 : 4 ≤ riskScore factors
    · simp [hA, h4]
    · by_cases h2 : 2 ≤ riskScore factors
      · simp [hA, h4, h2]
      · simp [hA, h4, h2]

/-- C5: the crisis handler's risk assessment scores 3 points per high-risk
factor and 1 per moderate-risk factor; classifies `imminent` when the score
is at least 6 or a registered crisis keyword (English or Arabic) occurs in
the text, `high` at score at least 4, `moderate` at least 2, `low` otherwise;
and a crisis keyword forces `imminent` regardless of the factors and sets
`crisis_detected`. -/
theorem C5_risk_score_and_classification :
    (∀ factors : List String,
      riskScore factors
        = 3 * factors.countP (fun f => high_risk_factors.contains f)
            + factors.countP (fun f => moderate_risk_factors.contains f)) ∧
    (∀ (st : CrisisToolState) (input : String) (factors : List String),
      ((assess_suicide_risk st input factors).1.current_risk_level = "imminent"
          ↔ 6 ≤ riskScore factors ∨ crisisKeywordPresent input = true) ∧
      ((assess_suicide_risk st input factors).1.current_risk_level = "high"
          ↔ riskScore factors < 6 ∧ crisisKeywordPresent input = false
              ∧ 4 ≤ riskScore factors) ∧
      ((assess_suicide_risk st input factors).1.current_risk_level = "moderate"
          ↔ riskScore factors < 4 ∧ crisisKeywordPresent input = false
              ∧ 2 ≤ riskScore factors) ∧
      ((assess_suicide_risk st input factors).1.current_risk_level = "low"
          ↔ riskScore factors < 2 ∧ crisisKeywordPresent input = false)) ∧
    (∀ (st : CrisisToolState) (input : String) (factors : List String),
      crisisKeywordPresent input = true →
      (assess_suicide_risk st input factors).1.current_risk_level = "imminent" ∧
      (assess_suicide_risk st input factors).1.base.crisis_detected = true) := by
  refine ⟨riskScore_eq_weighted_counts, ?_, ?_⟩
  · intro st input factors
    rw [assess_current_risk_level]
    rcases hkw : crisisKeywordPresent input with _ | _ <;>
      by_cases h6 : 6 ≤ riskScore factors <;>
      by_cases h4 : 4 ≤ riskScore factors <;>
      by_cases h2 : 2 ≤ riskScore factors <;>
      refine ⟨?_, ?_, ?_, ?_⟩ <;>
      simp [hkw, h6, h4, h2] <;> omega
  · intro st input factors hkw
    constructor
    · rw [assess_current_risk_level]
      simp [hkw]
    · rw [assess_crisis_detected_flag, hkw]
      simp

/-- Witness for C5 at a concrete input containing the crisis keyword
`suicide`. -/
theorem C5_witness :
    crisisKeywordPresent "I think about suicide" = true ∧
    ((assess_suicide_risk {} "I think about suicide" ["hopelessness"]).1.current_risk_level
        = "imminent" ∧
     (assess_suicide_risk {} "I think about suicide" ["hopelessness"]).1.base.crisis_detected
        = true) :=
  ⟨by decide,
   C5_risk_score_and_classification.2.2 {} "I think about suicide" ["hopelessness"]
     (by decide)⟩

/-- C6: whenever the computed risk level is `imminent`, `_assess_suicide_risk`
has already cascaded into `_escalate_emergency` within the same call —
`emergency_escalation_needed` is set and the emergency protocol is logged
when it returns. -/
theorem C6_imminent_synchronously_escalates :
    ∀ (st : CrisisToolState) (input : String) (factors : List String),
      (assess_suicide_risk st input factors).1.current_risk_level = "imminent" →
      (assess_suicide_risk st input factors).1.base.emergency_escalation_needed = true ∧
      "emergency_protocol_activated"
        ∈ (assess_suicide_risk st input factors).1.base.session_clinical_log := by
  intro st input factors h
  rw [assess_current_risk_level] at h
  by_cases hA : 6 ≤ riskScore factors ∨ crisisKeywordPresent input = true
  · have hbase := assess_imminent_base st input factors hA
    rw [hbase]
    constructor
    · simp [trigger_emergency_protocol, log_clinical_action]
    · simp [trigger_emergency_protocol, log_clinical_action]
  · exfalso
    rw [if_neg hA] at h
    by_cases h4 : 4 ≤ riskScore factors
    · rw [if_pos h4] at h
      exact absurd h (by decide)
    · rw [if_neg h4] at h
      by_cases h2 : 2 ≤ riskScore factors
      · rw [if_pos h2] at h
        exact absurd h (by decide)
      · rw [if_neg h2] at h
        exact absurd h (by decide)

/-- Witness for C6 at a concrete input: two high-risk factors give score 6,
hence `imminent`, and the emergency flag is already set when the call
returns. -/
theorem C6_witness :
    (assess_suicide_risk {} "" ["previous_attempts", "substance_abuse"]).1.current_risk_level
        = "imminent" ∧
    ((assess_suicide_risk {} "" ["previous_attempts", "substance_abuse"]).1.base.emergency_escalation_needed
        = true ∧
     "emergency_protocol_activated"
        ∈ (assess_suicide_risk {} "" ["previous_attempts", "substance_abuse"]).1.base.session_clinical_log) :=
  ⟨by decide,
   C6_imminent_synchronously_escalates {} "" ["previous_attempts", "substance_abuse"]
     (by decide)⟩

/-- An inbound tool-call request `{name, arguments}`. -/
structure FunctionCall where
  name : String
  arguments : PyDict
deriving DecidableEq, Repr

/-- `TherapyAgentManager.handle_function_call`.  `current_tools` is the key
set of the active agent's `tool_instances` dict; `execute` is the awaited
handler call, which may raise (`Except.error` carries `str(e)`).  The whole
body sits in `try/except`, so a raising handler is converted into the error
string and never propagated — embedded by the `match` on `execute`'s
outcome. -/
def handle_function_call (current_tools : List String)
    (execute : String → PyVal → PyDict → Except String String)
    (function_call : FunctionCall) : String :=
  let function_name := function_call.name
  let arguments := function_call.arguments
  if function_name == "detect_crisis" then
    if current_tools.contains "crisis_detection" then
      let action := (dictGet arguments "action").getD (.vstr "assess_risk")
      let filtered_args := dictDropKeys arguments ["action"]
      match execute "crisis_detection" action filtered_args with
      | .ok r => r
      | .error e => "Error executing therapeutic function: " ++ e
    else "Crisis detection tool not available for current agent"
  else if function_name == "apply_cbt_technique" then
    if current_tools.contains "cbt_techniques" then
      let technique :=
        (dictGet arguments "technique").getD
          ((dictGet arguments "action").getD (.vstr "thought_challenging"))
      let filtered_args := dictDropKeys arguments ["technique", "action"]
      match execute "cbt_techniques" technique filtered_args with
      | .ok r => r
      | .error e => "Error executing therapeutic function: " ++ e
    else "CBT techniques tool not available for current agent"
  else if function_name == "analyze_emotion" then
    if current_tools.contains "emotional_analysis" then
      let analysis_type :=
        (dictGet arguments "analysis_type").getD
          ((dictGet arguments "action").getD (.vstr "detect_emotions"))
      let filtered_args := dictDropKeys arguments ["analysis_type", "action"]
      match execute "emotional_analysis" analysis_type filtered_args with
      | .ok r => r
      | .error e => "Error executing therapeutic function: " ++ e
    else "Emotional analysis tool not available for current agent"
  else if function_name == "manage_session" then
    if current_tools.contains "session_management" then
      let action := (dictGet arguments "action").getD (.vstr "update_progress")
      let filtered_args := dictDropKeys arguments ["action"]
      match execute "session_management" action filtered_args with
      | .ok r => r
      | .error e => "Error executing therapeutic function: " ++ e
    else "Session management tool not available for current agent"
  else
    "Unknown therapeutic function: " ++ function_name
      ++ ". Available functions: detect_crisis, apply_cbt_technique, analyze_emotion, manage_session"

theorem charsPrefix_self_append (l t : List Char) : charsPrefix l (l ++ t) = true := by
  induction l with
  | nil => rfl
  | cons a as ih => simp [charsPrefix, ih]

theorem charsInfix_cons_of (n : List Char) (c : Char) (h : List Char)
    (hh : charsInfix n h = true) : charsInfix n (c :: h) = true := by
  simp [charsInfix, hh]

theorem charsInfix_append_left (n a h : List Char)
    (hh : charsInfix n h = true) : charsInfix n (a ++ h) = true := by
  induction a with
  | nil => simpa using hh
  | cons c cs ih => exact charsInfix_cons_of n c (cs ++ h) ih

theorem charsInfix_self_append (n t : List Char) : charsInfix n (n ++ t) = true := by
  cases n with
  | nil => cases t <;> simp [charsInfix, charsPrefix]
  | cons c cs => simp [charsInfix, charsPrefix, charsPrefix_self_append]

theorem strContains_of_append_left (a s m : String) (h : strContains s m = true) :
    strContains (a ++ s) m = true := by
  unfold strContains at *
  rw [String.data_append]
  exact charsInfix_append_left _ _ _ h

theorem strContains_head (m b : String) : strContains (m ++ b) m = true := by
  unfold strContains
  rw [String.data_append]
  exact charsInfix_self_append _ _

theorem strContains_middle (a m b : String) : strContains (a ++ m ++ b) m = true := by
  rw [String.append_assoc]
  exact strContains_of_append_left a (m ++ b) m (strContains_head m b)

/-- A handler behaviour used to instantiate the dispatch-boundary theorems:
every call returns normally. -/
def execAlwaysOk : String → PyVal → PyDict → Except String String :=
  fun _ _ _ => .ok ""

/-- A handler behaviour used to instantiate the dispatch-boundary theorems:
every call raises. -/
def execAlwaysRaising : String → PyVal → PyDict → Except String String :=
  fun _ _ _ => .error "boom"

/-- C4, original statement, refuted: with the crisis persona's actual tool
map (`crisis_detection`, `session_management` — see the `register_agent`
calls in `backend/main.py`), dispatching `apply_cbt_technique` returns the
fixed notice `CBT techniques tool not available for current agent`, which
does not contain the requested tool name. -/
theorem C4_counterexample :
    handle_function_call ["crisis_detection", "session_management"] execAlwaysOk
        { name := "apply_cbt_technique", arguments := [] }
      = "CBT techniques tool not available for current agent" ∧
    strContains "CBT techniques tool not available for current agent"
        "apply_cbt_technique"
      = false := by
  constructor
  · rfl
  · decide

/-- C4 as amended: `handle_function_call` never propagates an exception.  A
request whose function name is unknown returns an error string that does
contain the requested name; each known function name whose backing tool is
not bound to the active persona returns its fixed
"... not available for current agent" notice, and none of these four notices
contains the requested function name; and on each of the four dispatch
branches a handler call that raises is caught at this boundary and converted
into `Error executing therapeutic function: ...`. -/
theorem C4_dispatch_boundary_amended :
    (∀ (tools : List String) (ex : String → PyVal → PyDict → Except String String)
       (fc : FunctionCall),
      ¬ fc.name ∈ ["detect_crisis", "apply_cbt_technique", "analyze_emotion",
          "manage_session"] →
      handle_function_call tools ex fc
        = "Unknown therapeutic function: " ++ fc.name
          ++ ". Available functions: detect_crisis, apply_cbt_technique, analyze_emotion, manage_session" ∧
      strContains (handle_function_call tools ex fc) fc.name = true) ∧
    ((∀ (tools : List String) (ex : String → PyVal → PyDict → Except String String)
        (args : PyDict),
      tools.contains "crisis_detection" = false →
      handle_function_call tools ex { name := "detect_crisis", arguments := args }
        = "Crisis detection tool not available for current agent") ∧
     strContains "Crisis detection tool not available for current agent"
        "detect_crisis" = false) ∧
    ((∀ (tools : List String) (ex : String → PyVal → PyDict → Except String String)
        (args : PyDict),
      tools.contains "cbt_techniques" = false →
      handle_function_call tools ex { name := "apply_cbt_technique", arguments := args }
        = "CBT techniques tool not available for current agent") ∧
     strContains "CBT techniques tool not available for current agent"
        "apply_cbt_technique" = false) ∧
    ((∀ (tools : List String) (ex : String → PyVal → PyDict → Except String String)
        (args : PyDict),
      tools.contains "emotional_analysis" = false →
      handle_function_call tools ex { name := "analyze_emotion", arguments := args }
        = "Emotional analysis tool not available for current agent") ∧
     strContains "Emotional analysis tool not available for current agent"
        "analyze_emotion" = false) ∧
    ((∀ (tools : List String) (ex : String → PyVal → PyDict → Except String String)
        (args : PyDict),
      tools.contains "session_management" = false →
      handle_function_call tools ex { name := "manage_session", arguments := args }
        = "Session management tool not available for current agent") ∧
     strContains "Session management tool not available for current agent"
        "manage_session" = false) ∧
    (∀ (tools : List String) (ex : String → PyVal → PyDict → Except String String)
       (args : PyDict) (e : String),
      tools.contains "crisis_detection" = true →
      ex "crisis_detection" ((dictGet args "action").getD (.vstr "assess_risk"))
          (dictDropKeys args ["action"]) = .error e →
      handle_function_call tools ex { name := "detect_crisis", arguments := args }
        = "Error executing therapeutic function: " ++ e) ∧
    (∀ (tools : List String) (ex : String → PyVal → PyDict → Except String String)
       (args : PyDict) (e : String),
      tools.contains "cbt_techniques" = true →
      ex "cbt_techniques"
          ((dictGet args "technique").getD
            ((dictGet args "action").getD (.vstr "thought_challenging")))
          (dictDropKeys args ["technique", "action"]) = .error e →
      handle_function_call tools ex { name := "apply_cbt_technique", arguments := args }
        = "Error executing therapeutic function: " ++ e) ∧
    (∀ (tools : List String) (ex : String → PyVal → PyDict → Except String String)
       (args : PyDict) (e : String),
      tools.contains "emotional_analysis" = true →
      ex "emotional_analysis"
          ((dictGet args "analysis_type").getD
            ((dictGet args "action").getD (.vstr "detect_emotions")))
          (dictDropKeys args ["analysis_type", "action"]) = .error e →
      handle_function_call tools ex { name := "analyze_emotion", arguments := args }
        = "Error executing therapeutic function: " ++ e) ∧
    (∀ (tools : List String) (ex : String → PyVal → PyDict → Except String String)
       (args : PyDict) (e : String),
      tools.contains "session_management" = true →
      ex "session_management" ((dictGet args "action").getD (.vstr "update_progress"))
          (dictDropKeys args ["action"]) = .error e →
      handle_function_call tools ex { name := "manage_session", arguments := args }
        = "Error executing therapeutic function: " ++ e) := by
  refine ⟨?_, ⟨?_, by decide⟩, ⟨?_, by decide⟩, ⟨?_, by decide⟩, ⟨?_, by decide⟩,
    ?_, ?_, ?_, ?_⟩
  · intro tools ex fc h
    simp only [List.mem_cons, List.not_mem_nil, or_false, not_or] at h
    obtain ⟨h1, h2, h3, h4⟩ := h
    have b1 : (fc.name == "detect_crisis") = false := by simpa using h1
    have b2 : (fc.name == "apply_cbt_technique") = false := by simpa using h2
    have b3 : (fc.name == "analyze_emotion") = false := by simpa using h3
    have b4 : (fc.name == "manage_session") = false := by simpa using h4
    have heq : handle_function_call tools ex fc
        = "Unknown therapeutic function: " ++ fc.name
          ++ ". Available functions: detect_crisis, apply_cbt_technique, analyze_emotion, manage_session" := by
      simp only [handle_function_call]
      rw [b1, b2, b3, b4]
      rfl
    exact ⟨heq, by rw [heq]; exact strContains_middle _ _ _⟩
  · intro tools ex args h
    simp only [handle_function_call]
    rw [h]
    rfl
  · intro tools ex args h
    simp only [handle_function_call]
    rw [h]
    rfl
  · intro tools ex args h
    simp only [handle_function_call]
    rw [h]
    rfl
  · intro tools ex args h
    simp only [handle_function_call]
    rw [h]
    rfl
  · intro tools ex args e hmem herr
    simp only [handle_function_call]
    rw [hmem, herr]
    rfl
  · intro tools ex args e hmem herr
    simp only [handle_function_call]
    rw [hmem, herr]
    rfl
  · intro tools ex args e hmem herr
    simp only [handle_function_call]
    rw [hmem, herr]
    rfl
  · intro tools ex args e hmem herr
    simp only [handle_function_call]
    rw [hmem, herr]
    rfl

/-- Witness for C4 (amended) at concrete inputs: an unknown function name,
each known function name against a persona that does not bind its tool, and
a raising handler behind each of the four dispatch branches. -/
theorem C4_witness :
    (¬ "translate_text" ∈ ["detect_crisis", "apply_cbt_technique", "analyze_emotion",
        "manage_session"] ∧
     (handle_function_call [] execAlwaysOk { name := "translate_text", arguments := [] }
        = "Unknown therapeutic function: " ++ "translate_text"
          ++ ". Available functions: detect_crisis, apply_cbt_technique, analyze_emotion, manage_session" ∧
      strContains
        (handle_function_call [] execAlwaysOk { name := "translate_text", arguments := [] })
        "translate_text" = true)) ∧
    (([] : List String).contains "crisis_detection" = false ∧
     handle_function_call [] execAlwaysOk { name := "detect_crisis", arguments := [] }
       = "Crisis detection tool not available for current agent") ∧
    (["crisis_detection", "session_management"].contains "cbt_techniques" = false ∧
     handle_function_call ["crisis_detection", "session_management"] execAlwaysOk
        { name := "apply_cbt_technique", arguments := [] }
       = "CBT techniques tool not available for current agent") ∧
    (([] : List String).contains "emotional_analysis" = false ∧
     handle_function_call [] execAlwaysOk { name := "analyze_emotion", arguments := [] }
       = "Emotional analysis tool not available for current agent") ∧
    (([] : List String).contains "session_management" = false ∧
     handle_function_call [] execAlwaysOk { name := "manage_session", arguments := [] }
       = "Session management tool not available for current agent") ∧
    (["crisis_detection"].contains "crisis_detection" = true ∧
     execAlwaysRaising "crisis_detection"
        ((dictGet [] "action").getD (.vstr "assess_risk")) (dictDropKeys [] ["action"])
       = .error "boom" ∧
     handle_function_call ["crisis_detection"] execAlwaysRaising
        { name := "detect_crisis", arguments := [] }
       = "Error executing therapeutic function: " ++ "boom") ∧
    (["cbt_techniques"].contains "cbt_techniques" = true ∧
     execAlwaysRaising "cbt_techniques"
        ((dictGet [] "technique").getD
          ((dictGet [] "action").getD (.vstr "thought_challenging")))
        (dictDropKeys [] ["technique", "action"])
       = .error "boom" ∧
     handle_function_call ["cbt_techniques"] execAlwaysRaising
        { name := "apply_cbt_technique", arguments := [] }
       = "Error executing therapeutic function: " ++ "boom") ∧
    (["emotional_analysis"].contains "emotional_analysis" = true ∧
     execAlwaysRaising "emotional_analysis"
        ((dictGet [] "analysis_type").getD
          ((dictGet [] "action").getD (.vstr "detect_emotions")))
        (dictDropKeys [] ["analysis_type", "action"])
       = .error "boom" ∧
     handle_function_call ["emotional_analysis"] execAlwaysRaising
        { name := "analyze_emotion", arguments := [] }
       = "Error executing therapeutic function: " ++ "boom") ∧
    (["session_management"].contains "session_management" = true ∧
     execAlwaysRaising "session_management"
        ((dictGet [] "action").getD (.vstr "update_progress")) (dictDropKeys [] ["action"])
       = .error "boom" ∧
     handle_function_call ["session_management"] execAlwaysRaising
        { name := "manage_session", arguments := [] }
       = "Error executing therapeutic function: " ++ "boom") :=
  ⟨⟨by decide,
    C4_dispatch_boundary_amended.1 [] execAlwaysOk
      { name := "translate_text", arguments := [] } (by decide)⟩,
   ⟨by decide,
    C4_dispatch_boundary_amended.2.1.1 [] execAlwaysOk [] (by decide)⟩,
   ⟨by decide,
    C4_dispatch_boundary_amended.2.2.1.1 ["crisis_detection", "session_management"]
      execAlwaysOk [] (by decide)⟩,
   ⟨by decide,
    C4_dispatch_boundary_amended.2.2.2.1.1 [] execAlwaysOk [] (by decide)⟩,
   ⟨by decide,
    C4_dispatch_boundary_amended.2.2.2.2.1.1 [] execAlwaysOk [] (by decide)⟩,
   ⟨by decide, rfl,
    C4_dispatch_boundary_amended.2.2.2.2.2.1 ["crisis_detection"] execAlwaysRaising []
      "boom" (by decide) rfl⟩,
   ⟨by decide, rfl,
    C4_dispatch_boundary_amended.2.2.2.2.2.2.1 ["cbt_techniques"] execAlwaysRaising []
      "boom" (by decide) rfl⟩,
   ⟨by decide, rfl,
    C4_dispatch_boundary_amended.2.2.2.2.2.2.2.1 ["emotional_analysis"] execAlwaysRaising []
      "boom" (by decide) rfl⟩,
   ⟨by decide, rfl,
    C4_dispatch_boundary_amended.2.2.2.2.2.2.2.2 ["session_management"] execAlwaysRaising []
      "boom" (by decide) rfl⟩⟩

/-
## CBT handler: `CBTTechniquesTool`
(`backend/tools/cbt_techniques_tool.py`)
-/

/-- One entry of `mood_logs` as built in `_apply_mood_monitoring` (the
`activities`, `thoughts` and `physical_symptoms` fields are created empty and
never filled, so only the rating and timestamp are represented). -/
structure MoodEntry where
  rating : Int
  timestamp : String
deriving DecidableEq, Repr

/-- The mutable state of one `CBTTechniquesTool` instance.  The elements of
`thought_records` and `behavioral_experiments` are abbreviated to their
discriminating field (the automatic thought resp. the target behaviour); no
verified property inspects their remaining worksheet fields. -/
structure CBTToolState where
  base : BaseFlags := {}
  active_techniques : List String := []
  thought_records : List String := []
  mood_logs : List MoodEntry := []
  behavioral_experiments : List String := []
deriving DecidableEq, Repr

/-- The allow-list of `CBTTechniquesTool.execute`. -/
def cbt_valid_techniques : List String :=
  ["thought_challenging", "behavioral_activation", "mood_monitoring",
   "cognitive_restructuring", "grounding_techniques", "islamic_cbt_integration",
   "gratitude_practice", "behavioral_experiment"]

/-- The keyword arguments `CBTTechniquesTool.execute` extracts from `kwargs`
with their `.get` defaults (`cultural_context` flags are flattened to the two
boolean keys the techniques read). -/
structure CBTKwargs where
  user_thoughts : String := ""
  target_behavior : String := ""
  mood_rating : Int := 5
  religious_integration : Bool := false
  family_involvement : Bool := false
  session_goals : List String := []

/-- The mood-description selection of `_apply_mood_monitoring` (the source
assigns `mood_description` in an `if/elif` chain over the rating; the Arabic
description and the encouragement line follow the same chain inside
`apply_mood_monitoring`). -/
def mood_monitoring_description (mood_rating : Int) : String :=
  if mood_rating ≤ 3 then "very low"
  else if mood_rating ≤ 5 then "low to moderate"
  else if mood_rating ≤ 7 then "moderate"
  else "good"

/-- `CBTTechniquesTool._apply_mood_monitoring`. -/
def apply_mood_monitoring (st : CBTToolState) (mood_rating : Int) (now : String) :
    CBTToolState × String :=
  let mood_entry : MoodEntry := { rating := mood_rating, timestamp := now }
  let st1 := { st with mood_logs := st.mood_logs ++ [mood_entry] }
  let mood_description := mood_monitoring_description mood_rating
  let arabic_description :=
    if mood_rating ≤ 3 then "منخفض جداً"
    else if mood_rating ≤ 5 then "منخفض إلى متوسط"
    else if mood_rating ≤ 7 then "متوسط"
    else "جيد"
  let encouragement :=
    if mood_rating ≤ 3 then
      "This is a difficult time, but feelings change. You\x27re taking a positive step by monitoring your mood."
    else if mood_rating ≤ 5 then
      "Your awareness of your mood is a strength. Small improvements are possible."
    else if mood_rating ≤ 7 then
      "This is a manageable level. Let\x27s work on techniques to improve further."
    else
      "This is a positive mood level. Let\x27s identify what\x27s helping you feel this way."
  let response :=
    "Your current mood rating: " ++ toString mood_rating ++ "/10 ("
      ++ mood_description ++ " / " ++ arabic_description ++ ")"
      ++ "\n\n" ++ encouragement
      ++ "\n\nMood tracking helps us:"
      ++ "\n• Identify patterns and triggers"
      ++ "\n• Recognize what activities improve mood"
      ++ "\n• See progress over time"
      ++ "\n• Make informed decisions about self-care"
  (st1, format_response_culturally response)

/-- The seven private technique procedures of `CBTTechniquesTool` that no
verified claim constrains (`_apply_thought_challenging`,
`_apply_behavioral_activation`, `_apply_cognitive_restructuring`,
`_apply_grounding_techniques`, `_apply_islamic_cbt`,
`_apply_gratitude_practice`, `_apply_behavioral_experiment`).  `execute` is
parameterised over them, so every theorem about `execute` holds for each
instantiation. -/
structure CBTBranches where
  apply_thought_challenging : CBTToolState → CBTKwargs → CBTToolState × String
  apply_behavioral_activation : CBTToolState → CBTKwargs → CBTToolState × String
  apply_cognitive_restructuring : CBTToolState → CBTKwargs → CBTToolState × String
  apply_grounding_techniques : CBTToolState → CBTKwargs → CBTToolState × String
  apply_islamic_cbt : CBTToolState → CBTKwargs → CBTToolState × String
  apply_gratitude_practice : CBTToolState → CBTKwargs → CBTToolState × String
  apply_behavioral_experiment : CBTToolState → CBTKwargs → CBTToolState × String

/-- `CBTTechniquesTool.execute`: validate against the allow-list (returning
the invalid-technique report before any state effect), log the technique,
append it to `active_techniques`, then dispatch. -/
def CBTTechniquesTool.execute (br : CBTBranches) (st : CBTToolState)
    (technique : String) (kw : CBTKwargs) (now : String) : CBTToolState × String :=
  if !(validate_action technique cbt_valid_techniques) then
    (st, "Invalid CBT technique. Use: " ++ joinComma cbt_valid_techniques)
  else
    let st1 := { st with base := log_clinical_action st.base ("cbt_" ++ technique) }
    let st2 := { st1 with active_techniques := st1.active_techniques ++ [technique] }
    if technique == "thought_challenging" then br.apply_thought_challenging st2 kw
    else if technique == "behavioral_activation" then br.apply_behavioral_activation st2 kw
    else if technique == "mood_monitoring" then apply_mood_monitoring st2 kw.mood_rating now
    else if technique == "cognitive_restructuring" then br.apply_cognitive_restructuring st2 kw
    else if technique == "grounding_techniques" then br.apply_grounding_techniques st2 kw
    else if technique == "islamic_cbt_integration" then br.apply_islamic_cbt st2 kw
    else if technique == "gratitude_practice" then br.apply_gratitude_practice st2 kw
    else br.apply_behavioral_experiment st2 kw

/-- The descriptive tiers exactly as the specification words them: "very
low" for 1 through 3, "low to moderate" for 4 through 5, "moderate" for 6
through 7, "good" for 8 through 10. -/
def mood_bucket (r : Int) : String :=
  if 1 ≤ r ∧ r ≤ 3 then "very low"
  else if 4 ≤ r ∧ r ≤ 5 then "low to moderate"
  else if 6 ≤ r ∧ r ≤ 7 then "moderate"
  else "good"

/-- C9: for every rating from 1 to 10, the `mood_monitoring` technique
appends exactly one entry (the rating) to `mood_logs`, and the description
chosen for the reply matches the specification's tier table (in particular at
the boundary pairs 3/4, 5/6 and 7/8); the chosen description appears in the
returned reply. -/
theorem C9_mood_monitoring_appends_and_buckets :
    ∀ (br : CBTBranches) (st : CBTToolState) (kw : CBTKwargs) (r : Int) (now : String),
      1 ≤ r → r ≤ 10 →
      ((CBTTechniquesTool.execute br st "mood_monitoring"
          { kw with mood_rating := r } now).1.mood_logs
        = st.mood_logs ++ [{ rating := r, timestamp := now }]) ∧
      mood_monitoring_description r = mood_bucket r ∧
      strContains
        (CBTTechniquesTool.execute br st "mood_monitoring"
          { kw with mood_rating := r } now).2
        (mood_monitoring_description r) = true := by
  intro br st kw r now hlo hhi
  have hexec :
      CBTTechniquesTool.execute br st "mood_monitoring" { kw with mood_rating := r } now
        = apply_mood_monitoring
            { st with
              base := log_clinical_action st.base ("cbt_" ++ "mood_monitoring")
              active_techniques := st.active_techniques ++ ["mood_monitoring"] }
            r now := by
    simp only [CBTTechniquesTool.execute]
    rfl
  refine ⟨?_, ?_, ?_⟩
  · rw [hexec]
    rfl
  · unfold mood_monitoring_description mood_bucket
    by_cases h3 : r ≤ 3
    · simp [hlo, h3]
    · by_cases h5 : r ≤ 5
      · have h4 : 4 ≤ r := by omega
        simp [h3, h4, h5]
      · by_cases h7 : r ≤ 7
        · have h6 : 6 ≤ r := by omega
          simp [h3, h5, h6, h7]
        · simp [h3, h5, h7]
  · rw [hexec]
    unfold apply_mood_monitoring format_response_culturally
    simp only [String.append_assoc]
    apply strContains_of_append_left
    apply strContains_of_append_left
    apply strContains_of_append_left
    apply strContains_of_append_left
    exact strContains_head _ _

/-- Witness for C9 at the boundary ratings 3 and 4. -/
theorem C9_witness :
    ((1 : Int) ≤ 3 ∧ (3 : Int) ≤ 10 ∧
     ((CBTTechniquesTool.execute
         ⟨fun st _ => (st, ""), fun st _ => (st, ""), fun st _ => (st, ""),
          fun st _ => (st, ""), fun st _ => (st, ""), fun st _ => (st, ""),
          fun st _ => (st, "")⟩
         {} "mood_monitoring" { mood_rating := 3 } "t3").1.mood_logs
        = ({} : CBTToolState).mood_logs ++ [{ rating := 3, timestamp := "t3" }] ∧
      mood_monitoring_description 3 = mood_bucket 3 ∧
      strContains
        (CBTTechniquesTool.execute
          ⟨fun st _ => (st, ""), fun st _ => (st, ""), fun st _ => (st, ""),
           fun st _ => (st, ""), fun st _ => (st, ""), fun st _ => (st, ""),
           fun st _ => (st, "")⟩
          {} "mood_monitoring" { mood_rating := 3 } "t3").2
        (mood_monitoring_description 3) = true)) ∧
    ((1 : Int) ≤ 4 ∧ (4 : Int) ≤ 10 ∧
     mood_monitoring_description 4 = mood_bucket 4) :=
  ⟨⟨by decide, by decide,
    C9_mood_monitoring_appends_and_buckets
      ⟨fun st _ => (st, ""), fun st _ => (st, ""), fun st _ => (st, ""),
       fun st _ => (st, ""), fun st _ => (st, ""), fun st _ => (st, ""),
       fun st _ => (st, "")⟩
      {} {} 3 "t3" (by decide) (by decide)⟩,
   by decide, by decide,
   (C9_mood_monitoring_appends_and_buckets
      ⟨fun st _ => (st, ""), fun st _ => (st, ""), fun st _ => (st, ""),
       fun st _ => (st, ""), fun st _ => (st, ""), fun st _ => (st, ""),
       fun st _ => (st, "")⟩
      {} {} 4 "t4" (by decide) (by decide)).2.1⟩

/-
## Emotion handler: `EmotionalAnalysisTool`
(`backend/tools/emotional_analysis_tool.py`)
-/

/-- The mutable state of one `EmotionalAnalysisTool` instance.  The
emotion-history entries and pattern/marker records are dictionaries no
verified property inspects, kept as raw `PyDict`s. -/
structure EmotionToolState where
  base : BaseFlags := {}
  emotion_history : List PyDict := []
  current_emotional_state : PyDict := []
  emotional_patterns : PyDict := []
  cultural_emotional_markers : PyDict := []
deriving DecidableEq, Repr

/-- The allow-list of `EmotionalAnalysisTool.execute`. -/
def emotion_valid_types : List String :=
  ["detect_emotions", "track_patterns", "cultural_context_analysis",
   "emotional_intensity_assessment", "therapeutic_recommendations",
   "crisis_emotional_indicators"]

/-- The keyword arguments `EmotionalAnalysisTool.execute` extracts from
`kwargs` with their `.get` defaults. -/
structure EmotionKwargs where
  user_input : String := ""
  voice_features : PyDict := []
  cultural_context : PyDict := []
  session_context : PyDict := []

/-- The six private analysis procedures of `EmotionalAnalysisTool`
(`_detect_emotions`, `_track_emotional_patterns`,
`_analyze_cultural_context`, `_assess_emotional_intensity`,
`_generate_therapeutic_recommendations`,
`_analyze_crisis_emotional_indicators`).  No verified claim constrains them
(several are built on `re.search`, an external primitive); `execute` is
parameterised over them, so every theorem about `execute` holds for each
instantiation. -/
structure EmotionBranches where
  detect_emotions : EmotionToolState → EmotionKwargs → EmotionToolState × String
  track_emotional_patterns : EmotionToolState → EmotionKwargs → EmotionToolState × String
  analyze_cultural_context : EmotionToolState → EmotionKwargs → EmotionToolState × String
  assess_emotional_intensity : EmotionToolState → EmotionKwargs → EmotionToolState × String
  generate_therapeutic_recommendations : EmotionToolState → EmotionToolState × String
  analyze_crisis_emotional_indicators : EmotionToolState → EmotionKwargs → EmotionToolState × String

/-- `EmotionalAnalysisTool.execute`: validate against the allow-list
(returning the invalid-type report before any state effect), log the
analysis, then dispatch. -/
def EmotionalAnalysisTool.execute (br : EmotionBranches) (st : EmotionToolState)
    (analysis_type : String) (kw : EmotionKwargs) : EmotionToolState × String :=
  if !(validate_action analysis_type emotion_valid_types) then
    (st, "Invalid analysis type. Use: " ++ joinComma emotion_valid_types)
  else
    let st1 :=
      { st with base := log_clinical_action st.base ("emotional_analysis_" ++ analysis_type) }
    if analysis_type == "detect_emotions" then br.detect_emotions st1 kw
    else if analysis_type == "track_patterns" then br.track_emotional_patterns st1 kw
    else if analysis_type == "cultural_context_analysis" then br.analyze_cultural_context st1 kw
    else if analysis_type == "emotional_intensity_assessment" then br.assess_emotional_intensity st1 kw
    else if analysis_type == "therapeutic_recommendations" then br.generate_therapeutic_recommendations st1
    else br.analyze_crisis_emotional_indicators st1 kw

/-
## Session handler: `SessionManagementTool`
(`backend/tools/session_management_tool.py`)

Timestamps in this tool are modelled as `Nat` epoch seconds (`now`); the ISO
string renderings become `toString now`.
-/

/-- One entry of `session_notes` (`kind` is the source's `type` key). -/
structure NoteEntry where
  timestamp : Nat
  kind : String
  content : String
  author : String
deriving DecidableEq, Repr

/-- The session record `_start_session` builds and `_end_session`
finalises.  The `session_outcomes` and deep `clinical_data` snapshots it also
copies are dropped: no verified property inspects them.  `progress_markers`
entries are abbreviated to their `progress_notes` text. -/
structure SessionRecord where
  session_id : String
  start_time : Nat
  consent_status : PyDict
  cultural_preferences : PyDict
  therapeutic_goals : List String
  privacy_level : String
  session_type : String := "voice_therapy"
  platform : String := "omani_therapist_voice"
  end_time : Option Nat := none
  duration_minutes : Option Nat := none
  session_notes : List NoteEntry := []
  therapeutic_goals_addressed : List String := []
  progress_markers : List String := []
deriving DecidableEq, Repr

/-- The mutable state of one `SessionManagementTool` instance.  Python's
empty-dict `current_session` is `none`; the `clinical_data` mirror copies of
notes/contacts/goals are dropped (no verified property inspects them). -/
structure SessionToolState where
  base : BaseFlags := {}
  current_session : Option SessionRecord := none
  session_history : List SessionRecord := []
  consent_status : PyDict := []
  emergency_contacts : List PyDict := []
  cultural_preferences : PyDict := []
  session_active : Bool := false
  session_start_time : Option Nat := none
  session_notes : List NoteEntry := []
  privacy_level : String := "high"
  therapeutic_goals : List String := []
  progress_markers : List String := []
  session_outcomes : PyDict := []
deriving DecidableEq, Repr

/-- Truthiness of `d.get(k)` in Python boolean context. -/
def dictTruthy (d : PyDict) (k : String) : Bool :=
  ((dictGet d k).map PyVal.truthy).getD false

/-- `SessionManagementTool._start_session`. -/
def start_session (st : SessionToolState) (consent_details cultural_preferences : PyDict)
    (now : Nat) : SessionToolState × Except String String :=
  if st.session_active then
    (st, .ok "A session is already active. Please end the current session before starting a new one.")
  else
    let st1 :=
      { st with
        session_start_time := some now
        session_active := true
        session_notes := []
        session_outcomes := [] }
    let st2 :=
      if !cultural_preferences.isEmpty then
        { st1 with
          cultural_preferences := dictUpdate st1.cultural_preferences cultural_preferences }
      else st1
    let st3 :=
      if !consent_details.isEmpty then
        { st2 with consent_status := dictUpdate st2.consent_status consent_details }
      else st2
    let session_id := "session_" ++ toString now
    let st4 :=
      { st3 with
        current_session := some
          { session_id := session_id
            start_time := now
            consent_status := st3.consent_status
            cultural_preferences := st3.cultural_preferences
            therapeutic_goals := st3.therapeutic_goals
            privacy_level := st3.privacy_level } }
    let greeting :=
      if (dictGet cultural_preferences "preferred_language") == some (.vstr "arabic") then
        "أهلاً وسهلاً! مرحباً بك في جلسة العلاج النفسي الصوتي."
          ++ "\nWelcome to your voice therapy session."
      else
        "Welcome to your therapeutic voice session with OMANI Therapist Voice."
    let consent_info :=
      "\n\nBefore we begin, let me review our privacy and consent:"
        ++ (if dictTruthy st4.consent_status "recording_consent" then
              "\n✅ Session recording: Consented"
            else "\n❌ Session recording: Not consented")
        ++ (if dictTruthy st4.consent_status "data_storage_consent" then
              "\n✅ Clinical data storage: Consented"
            else "\n❌ Clinical data storage: Not consented")
    let response :=
      format_response_culturally
        (greeting ++ consent_info
          ++ "\n\nYour privacy and confidentiality are our highest priority. "
          ++ "This is a safe space for you to share and explore your feelings.")
    let response2 :=
      if dictTruthy cultural_preferences "religious_considerations" then
        response ++ "\n\nبسم الله نبدأ جلستنا (In the name of Allah, we begin our session)."
      else response
    (st4, .ok response2)

/-- `SessionManagementTool._generate_session_summary`. -/
def generate_session_summary (st : SessionToolState) (now : Nat) : String :=
  if !st.session_active && st.current_session.isNone then "No session data available."
  else
    let duration := (now - st.session_start_time.getD 0) / 60
    let parts := ["Session duration: " ++ toString duration ++ " minutes"]
    let parts :=
      if !st.therapeutic_goals.isEmpty then
        parts ++ ["Therapeutic goals worked on: " ++ toString st.therapeutic_goals.length]
      else parts
    let parts :=
      if !st.session_notes.isEmpty then
        parts ++ ["Clinical observations recorded: " ++ toString st.session_notes.length]
      else parts
    let parts :=
      if !st.progress_markers.isEmpty then
        parts ++ ["Progress documented: " ++ toString st.progress_markers.length ++ " markers"]
      else parts
    let parts :=
      if st.base.crisis_detected then parts ++ ["⚠️ Crisis indicators were addressed"]
      else parts
    let parts :=
      if !st.cultural_preferences.isEmpty then
        parts ++ ["Cultural preferences were incorporated"]
      else parts
    String.intercalate " | " parts

/-- `SessionManagementTool._generate_follow_up_recommendations`. -/
def generate_follow_up_recommendations (st : SessionToolState) : List String :=
  let recommendations : List String := []
  let recommendations :=
    if st.base.crisis_detected then
      recommendations
        ++ ["Schedule follow-up within 24-48 hours", "Maintain safety plan adherence",
            "Consider professional referral consultation"]
    else recommendations
  let recommendations :=
    if !st.progress_markers.isEmpty then
      recommendations ++ ["Continue working on established therapeutic goals"]
    else recommendations
  let recommendations :=
    if dictTruthy st.cultural_preferences "family_involvement_preferred" then
      recommendations ++ ["Consider family session for additional support"]
    else recommendations
  let recommendations :=
    if dictTruthy st.cultural_preferences "religious_considerations" then
      recommendations ++ ["Integrate spiritual practices in self-care routine"]
    else recommendations
  if recommendations.isEmpty then
    ["Practice techniques discussed in session", "Schedule regular follow-up session",
     "Maintain self-care routine"]
  else recommendations

/-- `SessionManagementTool._suggest_next_session_timing`.  After the crisis
branch, the source reads `self.current_emotional_state` — an attribute set
only on `EmotionalAnalysisTool` and never on `SessionManagementTool` (nor on
`BaseTool`) — so that access raises `AttributeError`, making the
`progress_markers` and default branches unreachable. -/
def suggest_next_session_timing (st : SessionToolState) : Except String String :=
  if st.base.crisis_detected || st.base.emergency_escalation_needed then
    .ok "Within 24-48 hours (urgent follow-up)"
  else
    .error "AttributeError: \x27SessionManagementTool\x27 object has no attribute \x27current_emotional_state\x27"

/-- Python's plain `{}` that `_end_session` would `update` in place when no
session record was started: every pre-existing key is simply absent. -/
def empty_session_record : SessionRecord :=
  { session_id := ""
    start_time := 0
    consent_status := []
    cultural_preferences := []
    therapeutic_goals := []
    privacy_level := ""
    session_type := ""
    platform := "" }

/-- `SessionManagementTool._end_session`.  In source order: append the final
note, finalise and append the session record to the history, derive the
summary and closing, then evaluate the `send_client_command` arguments —
where `_suggest_next_session_timing` raises unless a crisis flag is set — and
only then reset the per-session state and return the response. -/
def end_session (st : SessionToolState) (final_notes : String) (now : Nat) :
    SessionToolState × Except String String :=
  if !st.session_active then (st, .ok "No active session to end.")
  else
    let session_duration := now - st.session_start_time.getD 0
    let st1 :=
      if !(final_notes == "") then
        { st with
          session_notes := st.session_notes
            ++ [{ timestamp := now, kind := "final_notes", content := final_notes,
                  author := "system" }] }
      else st
    let updated_record :=
      { st1.current_session.getD empty_session_record with
        end_time := some now
        duration_minutes := some (session_duration / 60)
        session_notes := st1.session_notes
        therapeutic_goals_addressed := st1.therapeutic_goals
        progress_markers := st1.progress_markers }
    let st2 :=
      { st1 with
        current_session := some updated_record
        session_history := st1.session_history ++ [updated_record] }
    let summary := generate_session_summary st2 now
    let closing :=
      if (dictGet st2.cultural_preferences "preferred_language") == some (.vstr "arabic") then
        "شكراً لك على مشاركتك في هذه الجلسة. أتمنى أن تكون مفيدة لك. الله يعطيك العافية."
          ++ "\n\nThank you for participating in this session. "
          ++ "I hope it was helpful for you. May Allah give you strength."
      else
        "Thank you for sharing in this therapeutic session. "
          ++ "I hope you found it helpful and supportive."
    let response :=
      format_response_culturally (closing ++ "\n\nSession Summary:\n" ++ summary)
        "encouraging"
    let _follow_up := generate_follow_up_recommendations st2
    match suggest_next_session_timing st2 with
    | .error e => (st2, .error e)
    | .ok _ =>
      ({ st2 with
         session_active := false
         current_session := none
         session_notes := []
         progress_markers := []
         session_outcomes := [] },
       .ok response)

/-- `SessionManagementTool._export_session_summary`: a derived, read-only
summary.  The `summary`/`readable_summary` values it assembles feed only the
`send_client_command` broadcast; the method mutates nothing and returns the
fixed confirmation. -/
def export_session_summary (st : SessionToolState) :
    SessionToolState × Except String String :=
  if st.session_history.isEmpty && !st.session_active then
    (st, .ok "No session data available to export.")
  else
    (st,
     .ok (format_response_culturally
       ("Session summary has been generated and exported. "
         ++ "This summary maintains your privacy settings and contains your therapeutic progress information.")))

/-- The allow-list of `SessionManagementTool.execute`. -/
def session_valid_actions : List String :=
  ["start_session", "end_session", "manage_consent", "update_notes",
   "set_emergency_contacts", "manage_privacy_settings", "track_therapeutic_goals",
   "document_progress", "handle_session_interruption", "export_session_summary"]

/-- The keyword arguments `SessionManagementTool.execute` extracts from
`kwargs` with their `.get` defaults. -/
structure SessionKwargs where
  consent_details : PyDict := []
  emergency_contacts : List PyDict := []
  cultural_preferences : PyDict := []
  therapeutic_goals : List String := []
  session_notes : String := ""
  privacy_level : String := "high"

/-- The seven private procedures of `SessionManagementTool` that no verified
claim constrains (`_manage_consent`, `_update_session_notes`,
`_set_emergency_contacts`, `_manage_privacy_settings`,
`_track_therapeutic_goals`, `_document_progress`,
`_handle_session_interruption`).  `execute` is parameterised over them, so
every theorem about `execute` holds for each instantiation. -/
structure SessionBranches where
  manage_consent : SessionToolState → PyDict → SessionToolState × Except String String
  update_session_notes : SessionToolState → String → SessionToolState × Except String String
  set_emergency_contacts :
    SessionToolState → List PyDict → SessionToolState × Except String String
  manage_privacy_settings :
    SessionToolState → String → SessionToolState × Except String String
  track_therapeutic_goals :
    SessionToolState → List String → SessionToolState × Except String String
  document_progress : SessionToolState → String → SessionToolState × Except String String
  handle_session_interruption : SessionToolState → SessionToolState × Except String String

/-- `SessionManagementTool.execute`: validate against the allow-list
(returning the invalid-action report before any state effect), log the
action, then dispatch. -/
def SessionManagementTool.execute (br : SessionBranches) (st : SessionToolState)
    (action : String) (kw : SessionKwargs) (now : Nat) :
    SessionToolState × Except String String :=
  if !(validate_action action session_valid_actions) then
    (st, .ok ("Invalid session action. Use: " ++ joinComma session_valid_actions))
  else
    let st1 :=
      { st with base := log_clinical_action st.base ("session_management_" ++ action) }
    if action == "start_session" then
      start_session st1 kw.consent_details kw.cultural_preferences now
    else if action == "end_session" then end_session st1 kw.session_notes now
    else if action == "manage_consent" then br.manage_consent st1 kw.consent_details
    else if action == "update_notes" then br.update_session_notes st1 kw.session_notes
    else if action == "set_emergency_contacts" then
      br.set_emergency_contacts st1 kw.emergency_contacts
    else if action == "manage_privacy_settings" then
      br.manage_privacy_settings st1 kw.privacy_level
    else if action == "track_therapeutic_goals" then
      br.track_therapeutic_goals st1 kw.therapeutic_goals
    else if action == "document_progress" then br.document_progress st1 kw.session_notes
    else if action == "handle_session_interruption" then br.handle_session_interruption st1
    else export_session_summary st1

/-- C8: the claim is right about the intent and the code is wrong.
`export_session_summary` indeed mutates nothing, but `end_session` on an
ordinary active session (no crisis flags set) evaluates
`_suggest_next_session_timing`, which reads the attribute
`current_emotional_state` that `SessionManagementTool` never defines, and so
raises `AttributeError` instead of returning the derived summary.  This
theorem evaluates the embedded code at the failing input: a fresh tool,
`start_session`, then `end_session`. -/
theorem C8_end_session_raises_attribute_error :
    (∀ st : SessionToolState, (export_session_summary st).1 = st) ∧
    ((start_session {} [] [] 100).1.session_active = true ∧
     (start_session {} [] [] 100).1.base.crisis_detected = false ∧
     (start_session {} [] [] 100).1.base.emergency_escalation_needed = false) ∧
    (end_session (start_session {} [] [] 100).1 "" 160).2
      = .error "AttributeError: \x27SessionManagementTool\x27 object has no attribute \x27current_emotional_state\x27" := by
  refine ⟨?_, by decide, by rfl⟩
  intro st
  unfold export_session_summary
  split <;> rfl

/-- Trivial instantiation of the crisis branch procedures. -/
def crisisBranchesTrivial : CrisisBranches :=
  { monitor_crisis_indicators := fun st _ => (st, "")
    create_safety_plan := fun st _ => (st, "")
    provide_immediate_support := fun st _ _ => (st, "")
    activate_cultural_protocols := fun st _ => (st, "") }

/-- Trivial instantiation of the CBT branch procedures. -/
def cbtBranchesTrivial : CBTBranches :=
  { apply_thought_challenging := fun st _ => (st, "")
    apply_behavioral_activation := fun st _ => (st, "")
    apply_cognitive_restructuring := fun st _ => (st, "")
    apply_grounding_techniques := fun st _ => (st, "")
    apply_islamic_cbt := fun st _ => (st, "")
    apply_gratitude_practice := fun st _ => (st, "")
    apply_behavioral_experiment := fun st _ => (st, "") }

/-- Trivial instantiation of the emotion branch procedures. -/
def emotionBranchesTrivial : EmotionBranches :=
  { detect_emotions := fun st _ => (st, "")
    track_emotional_patterns := fun st _ => (st, "")
    analyze_cultural_context := fun st _ => (st, "")
    assess_emotional_intensity := fun st _ => (st, "")
    generate_therapeutic_recommendations := fun st => (st, "")
    analyze_crisis_emotional_indicators := fun st _ => (st, "") }

/-- Trivial instantiation of the session branch procedures. -/
def sessionBranchesTrivial : SessionBranches :=
  { manage_consent := fun st _ => (st, .ok "")
    update_session_notes := fun st _ => (st, .ok "")
    set_emergency_contacts := fun st _ => (st, .ok "")
    manage_privacy_settings := fun st _ => (st, .ok "")
    track_therapeutic_goals := fun st _ => (st, .ok "")
    document_progress := fun st _ => (st, .ok "")
    handle_session_interruption := fun st => (st, .ok "") }

/-- C10: for each of the four tool handlers, calling `execute` with an
action/technique outside its allow-list returns exactly the invalid-action
report listing the valid set, and the handler state after the call equals its
state before — no clinical-log append, no flag, no accumulator change — for
every behaviour of the private branch procedures. -/
theorem C10_invalid_action_pure_error :
    (∀ (br : CrisisBranches) (st : CrisisToolState) (action : String) (kw : CrisisKwargs),
      validate_action action crisis_valid_actions = false →
      CrisisDetectionTool.execute br st action kw
        = (st, "Invalid crisis action. Use: " ++ joinComma crisis_valid_actions)) ∧
    (∀ (br : CBTBranches) (st : CBTToolState) (technique : String) (kw : CBTKwargs)
       (now : String),
      validate_action technique cbt_valid_techniques = false →
      CBTTechniquesTool.execute br st technique kw now
        = (st, "Invalid CBT technique. Use: " ++ joinComma cbt_valid_techniques)) ∧
    (∀ (br : EmotionBranches) (st : EmotionToolState) (analysis_type : String)
       (kw : EmotionKwargs),
      validate_action analysis_type emotion_valid_types = false →
      EmotionalAnalysisTool.execute br st analysis_type kw
        = (st, "Invalid analysis type. Use: " ++ joinComma emotion_valid_types)) ∧
    (∀ (br : SessionBranches) (st : SessionToolState) (action : String)
       (kw : SessionKwargs) (now : Nat),
      validate_action action session_valid_actions = false →
      SessionManagementTool.execute br st action kw now
        = (st, .ok ("Invalid session action. Use: " ++ joinComma session_valid_actions))) := by
  refine ⟨?_, ?_, ?_, ?_⟩
  · intro br st action kw h
    unfold CrisisDetectionTool.execute
    rw [h]
    rfl
  · intro br st technique kw now h
    unfold CBTTechniquesTool.execute
    rw [h]
    rfl
  · intro br st analysis_type kw h
    unfold EmotionalAnalysisTool.execute
    rw [h]
    rfl
  · intro br st action kw now h
    unfold SessionManagementTool.execute
    rw [h]
    rfl

/-- Witness for C10 at a concrete out-of-list action for each handler. -/
theorem C10_witness :
    (validate_action "dance_therapy" crisis_valid_actions = false ∧
     CrisisDetectionTool.execute crisisBranchesTrivial {} "dance_therapy" {}
       = ({}, "Invalid crisis action. Use: " ++ joinComma crisis_valid_actions)) ∧
    (validate_action "dance_therapy" cbt_valid_techniques = false ∧
     CBTTechniquesTool.execute cbtBranchesTrivial {} "dance_therapy" {} "t0"
       = ({}, "Invalid CBT technique. Use: " ++ joinComma cbt_valid_techniques)) ∧
    (validate_action "dance_therapy" emotion_valid_types = false ∧
     EmotionalAnalysisTool.execute emotionBranchesTrivial {} "dance_therapy" {}
       = ({}, "Invalid analysis type. Use: " ++ joinComma emotion_valid_types)) ∧
    (validate_action "dance_therapy" session_valid_actions = false ∧
     SessionManagementTool.execute sessionBranchesTrivial {} "dance_therapy" {} 0
       = ({}, .ok ("Invalid session action. Use: " ++ joinComma session_valid_actions))) :=
  ⟨⟨by decide,
    C10_invalid_action_pure_error.1 crisisBranchesTrivial {} "dance_therapy" {} (by decide)⟩,
   ⟨by decide,
    C10_invalid_action_pure_error.2.1 cbtBranchesTrivial {} "dance_therapy" {} "t0" (by decide)⟩,
   ⟨by decide,
    C10_invalid_action_pure_error.2.2.1 emotionBranchesTrivial {} "dance_therapy" {} (by decide)⟩,
   ⟨by decide,
    C10_invalid_action_pure_error.2.2.2 sessionBranchesTrivial {} "dance_therapy" {} 0 (by decide)⟩⟩

/-- One call of a switch sequence. -/
structure SwitchCall where
  target : String
  reason : String
  cultural_context : Option PyDict

/-- Folding `switch_agent` over a sequence of calls. -/
def runSwitches (cb : CbMode) (now : String) : ManagerState → List SwitchCall → ManagerState
  | st, [] => st
  | st, c :: rest =>
    runSwitches cb now (switch_agent st c.target c.reason c.cultural_context cb now).1 rest

/-- Spec-side counter: the number of calls whose target is registered and
differs from the persona active at call time (tracking the active persona
through the sequence).  Stated from the specification's wording, to be
compared with the history length produced by the embedded `switch_agent`. -/
def switchSuccessCount (agents : List String) : String → List SwitchCall → Nat
  | _, [] => 0
  | active, c :: rest =>
    if agents.contains c.target && c.target != active then
      switchSuccessCount agents c.target rest + 1
    else
      switchSuccessCount agents active rest

/-- A concrete manager state with the three agents of `backend/main.py`
registered and the general agent active, used to instantiate witnesses. -/
def mgrDemo : ManagerState :=
  { current_agent := "general_therapy"
    agents := ["general_therapy", "crisis_intervention", "cbt_specialist"]
    agent_history := []
    cultural_context := []
    clinical_state := {} }

theorem switch_agent_not_registered (st : ManagerState) (t r : String)
    (cc : Option PyDict) (cb : CbMode) (now : String)
    (h : st.agents.contains t = false) :
    switch_agent st t r cc cb now
      = (st,
         "Therapeutic agent \x27" ++ t ++ "\x27 not available. Available: "
           ++ joinComma st.agents,
         []) := by
  unfold switch_agent
  rw [h]
  rfl

theorem switch_agent_already_active (st : ManagerState) (t r : String)
    (cc : Option PyDict) (cb : CbMode) (now : String)
    (h1 : st.agents.contains t = true) (h2 : (t == st.current_agent) = true) :
    switch_agent st t r cc cb now = (st, "Already using " ++ t ++ " agent.", []) := by
  unfold switch_agent
  rw [h1, h2]
  rfl

theorem switch_agent_success (st : ManagerState) (t r : String)
    (cc : Option PyDict) (cb : CbMode) (now : String)
    (h1 : st.agents.contains t = true) (h2 : (t == st.current_agent) = false) :
    switch_agent st t r cc cb now
      = ({ st with
           agent_history := st.agent_history
             ++ [⟨now, st.current_agent, t, r, cc.getD [], st.clinical_state⟩]
           cultural_context :=
             if optDictTruthy cc then dictUpdate st.cultural_context (cc.getD [])
             else st.cultural_context
           current_agent := t },
         generate_agent_switch_message st.current_agent t r cc,
         [MgrEvent.historyAppend]
           ++ (if optDictTruthy cc then [MgrEvent.culturalMerge] else [])
           ++ [MgrEvent.activeSet t]
           ++ (match cb with
               | .absent => []
               | .ok => [.remoteRecreate true]
               | .raises => [.remoteRecreate false])) := by
  unfold switch_agent
  rw [h1, h2]
  by_cases hm : optDictTruthy cc = true <;> simp [hm]

theorem runSwitches_history_length (cb : CbMode) (now : String) :
    ∀ (calls : List SwitchCall) (st : ManagerState),
      (runSwitches cb now st calls).agent_history.length
        = st.agent_history.length + switchSuccessCount st.agents st.current_agent calls := by
  intro calls
  induction calls with
  | nil => intro st; rfl
  | cons c rest ih =>
    intro st
    by_cases hmem : st.agents.contains c.target = true
    · by_cases heq : (c.target == st.current_agent) = true
      · have hfst := switch_agent_already_active st c.target c.reason c.cultural_context cb now hmem heq
        simp only [runSwitches, switchSuccessCount, hfst, ih,
          bne_iff_ne, ne_eq, hmem, Bool.true_and]
        have : c.target = st.current_agent := by simpa using heq
        simp [this]
      · have heq2 : (c.target == st.current_agent) = false := by
          simpa using heq
        have hfst := switch_agent_success st c.target c.reason c.cultural_context cb now hmem heq2
        simp only [runSwitches, switchSuccessCount, hfst, ih]
        have hne : c.target ≠ st.current_agent := by simpa using heq2
        have hmem3 : c.target ∈ st.agents := by simpa using hmem
        simp [hmem3, hne]
        omega
    · have hmem2 : st.agents.contains c.target = false := by
        simpa using hmem
      have hfst := switch_agent_not_registered st c.target c.reason c.cultural_context cb now hmem2
      simp only [runSwitches, switchSuccessCount, hfst, ih]
      have hmem3 : ¬ c.target ∈ st.agents := by simpa using hmem2
      simp [hmem3]

/-- C1: over any sequence of `switch_agent` calls the history length equals
the number of calls whose target was registered and differed from the persona
active at call time; a switch to the already-active (registered) persona
returns the already-active notice and changes nothing; a switch to an
unregistered persona returns the error naming the available personas and
changes nothing (no history append, no active change, no cultural merge, and
no callback event). -/
theorem C1_switch_history_counts_successful_switches :
    (∀ (st : ManagerState) (cb : CbMode) (now : String) (calls : List SwitchCall),
      (runSwitches cb now st calls).agent_history.length
        = st.agent_history.length + switchSuccessCount st.agents st.current_agent calls) ∧
    (∀ (st : ManagerState) (t r : String) (cc : Option PyDict) (cb : CbMode) (now : String),
      st.agents.contains t = true → t = st.current_agent →
      switch_agent st t r cc cb now = (st, "Already using " ++ t ++ " agent.", [])) ∧
    (∀ (st : ManagerState) (t r : String) (cc : Option PyDict) (cb : CbMode) (now : String),
      st.agents.contains t = false →
      switch_agent st t r cc cb now
        = (st,
           "Therapeutic agent \x27" ++ t ++ "\x27 not available. Available: "
             ++ joinComma st.agents,
           [])) := by
  refine ⟨fun st cb now calls => runSwitches_history_length cb now calls st, ?_, ?_⟩
  · intro st t r cc cb now h1 h2
    exact switch_agent_already_active st t r cc cb now h1 (by simpa using h2)
  · intro st t r cc cb now h
    exact switch_agent_not_registered st t r cc cb now h

/-- Witness for C1 at concrete inputs, replaying the specification's example:
starting on `general_therapy`, the sequence general → crisis → crisis leaves
exactly one history record, and the two degenerate switches return their
notices without touching the state. -/
theorem C1_witness :
    ((runSwitches CbMode.ok "t0" mgrDemo
        [⟨"general_therapy", "", none⟩, ⟨"crisis_intervention", "", none⟩,
         ⟨"crisis_intervention", "", none⟩]).agent_history.length
      = mgrDemo.agent_history.length
        + switchSuccessCount mgrDemo.agents mgrDemo.current_agent
            [⟨"general_therapy", "", none⟩, ⟨"crisis_intervention", "", none⟩,
             ⟨"crisis_intervention", "", none⟩]) ∧
    (mgrDemo.agents.contains "general_therapy" = true ∧
     "general_therapy" = mgrDemo.current_agent ∧
     switch_agent mgrDemo "general_therapy" "" none CbMode.ok "t0"
       = (mgrDemo, "Already using general_therapy agent.", [])) ∧
    (mgrDemo.agents.contains "hypnotherapy" = false ∧
     switch_agent mgrDemo "hypnotherapy" "" none CbMode.ok "t0"
       = (mgrDemo,
          "Therapeutic agent \x27hypnotherapy\x27 not available. Available: "
            ++ joinComma mgrDemo.agents,
          [])) :=
  ⟨C1_switch_history_counts_successful_switches.1 mgrDemo CbMode.ok "t0" _,
   ⟨by decide, by decide,
    C1_switch_history_counts_successful_switches.2.1 mgrDemo "general_therapy" "" none
      CbMode.ok "t0" (by decide) (by decide)⟩,
   ⟨by decide,
    C1_switch_history_counts_successful_switches.2.2 mgrDemo "hypnotherapy" "" none
      CbMode.ok "t0" (by decide)⟩⟩

/-- C2: on a switch to a registered, non-active persona the local commit is
already in the state handed past the callback await, and a raising callback
produces the same final state as a succeeding one — the appended history
record and the new active persona survive the failure; in the side-effect
trace every local-commit event precedes the remote-recreate event. -/
theorem C2_local_commit_precedes_callback_and_survives_failure :
    ∀ (st : ManagerState) (t r : String) (cc : Option PyDict) (now : String),
      st.agents.contains t = true → t ≠ st.current_agent →
      (switch_agent st t r cc CbMode.raises now).1
          = (switch_agent st t r cc CbMode.ok now).1 ∧
      (switch_agent st t r cc CbMode.raises now).1.current_agent = t ∧
      (switch_agent st t r cc CbMode.raises now).1.agent_history
          = st.agent_history
            ++ [⟨now, st.current_agent, t, r, cc.getD [], st.clinical_state⟩] ∧
      (∃ pre,
        (switch_agent st t r cc CbMode.raises now).2.2
            = pre ++ [MgrEvent.remoteRecreate false] ∧
        MgrEvent.historyAppend ∈ pre ∧
        MgrEvent.activeSet t ∈ pre ∧
        ∀ b, MgrEvent.remoteRecreate b ∉ pre) := by
  intro st t r cc now h1 h2
  have h2b : (t == st.current_agent) = false := by simpa using h2
  have hok := switch_agent_success st t r cc CbMode.ok now h1 h2b
  have hraises := switch_agent_success st t r cc CbMode.raises now h1 h2b
  refine ⟨by simp only [hok, hraises], by rw [hraises], by rw [hraises], ?_⟩
  refine ⟨[MgrEvent.historyAppend]
      ++ (if optDictTruthy cc then [MgrEvent.culturalMerge] else [])
      ++ [MgrEvent.activeSet t], ?_, ?_, ?_, ?_⟩
  · rw [hraises]
  · simp
  · simp
  · intro b
    by_cases hm : optDictTruthy cc = true <;> simp [hm]

/-- Witness for C2 at a concrete input: switching `mgrDemo` to the CBT
persona under a raising callback. -/
theorem C2_witness :
    mgrDemo.agents.contains "cbt_specialist" = true ∧
    "cbt_specialist" ≠ mgrDemo.current_agent ∧
    ((switch_agent mgrDemo "cbt_specialist" "r" none CbMode.raises "t1").1
        = (switch_agent mgrDemo "cbt_specialist" "r" none CbMode.ok "t1").1 ∧
      (switch_agent mgrDemo "cbt_specialist" "r" none CbMode.raises "t1").1.current_agent
        = "cbt_specialist" ∧
      (switch_agent mgrDemo "cbt_specialist" "r" none CbMode.raises "t1").1.agent_history
        = mgrDemo.agent_history
          ++ [⟨"t1", mgrDemo.current_agent, "cbt_specialist", "r", (none : Option PyDict).getD [],
               mgrDemo.clinical_state⟩] ∧
      (∃ pre,
        (switch_agent mgrDemo "cbt_specialist" "r" none CbMode.raises "t1").2.2
            = pre ++ [MgrEvent.remoteRecreate false] ∧
        MgrEvent.historyAppend ∈ pre ∧
        MgrEvent.activeSet "cbt_specialist" ∈ pre ∧
        ∀ b, MgrEvent.remoteRecreate b ∉ pre)) :=
  ⟨by decide, by decide,
   C2_local_commit_precedes_callback_and_survives_failure mgrDemo "cbt_specialist" "r"
     none "t1" (by decide) (by decide)⟩

theorem switch_agent_preserves_clinical_state (st : ManagerState) (t r : String)
    (cc : Option PyDict) (cb : CbMode) (now : String) :
    (switch_agent st t r cc cb now).1.clinical_state = st.clinical_state := by
  unfold switch_agent
  split
  · rfl
  · split
    · rfl
    · by_cases hm : optDictTruthy cc = true <;> simp [hm]

theorem switch_agent_preserves_agents (st : ManagerState) (t r : String)
    (cc : Option PyDict) (cb : CbMode) (now : String) :
    (switch_agent st t r cc cb now).1.agents = st.agents := by
  unfold switch_agent
  split
  · rfl
  · split
    · rfl
    · by_cases hm : optDictTruthy cc = true <;> simp [hm]

theorem handle_crisis_escalation_sets_crisis_active (st : ManagerState)
    (ctype : String) (cdata : PyDict) (cb : CbMode) (now : String) :
    (handle_crisis_escalation st ctype cdata cb now).1.clinical_state.crisis_active = true := by
  by_cases hc : st.current_agent = "crisis_intervention"
  · unfold handle_crisis_escalation
    simp [hc]
  · have hcc : (st.current_agent == "crisis_intervention") = false := by
      simp only [beq_eq_false_iff_ne, ne_eq]
      exact hc
    unfold handle_crisis_escalation
    simp only [hcc, Bool.not_false, if_true]
    rw [switch_agent_preserves_clinical_state]

/-- C3: `handle_crisis_escalation` always sets `crisis_active`; when the
crisis persona is already active it is a no-op apart from the clinical-state
merge and returns the handling notice; and (when the crisis persona is
registered) two consecutive calls perform at most one switch — zero if crisis
was already active — leave `crisis_active` true, and the second call returns
the already-handling notice. -/
theorem C3_crisis_escalation_idempotent :
    ∀ (st : ManagerState) (ctype : String) (cdata : PyDict) (cb : CbMode) (n1 n2 : String),
      ((handle_crisis_escalation st ctype cdata cb n1).1.clinical_state.crisis_active = true) ∧
      ((handle_crisis_escalation
          (handle_crisis_escalation st ctype cdata cb n1).1 ctype cdata cb n2).1.clinical_state.crisis_active
        = true) ∧
      (st.current_agent = "crisis_intervention" →
        (handle_crisis_escalation st ctype cdata cb n1).1.agent_history = st.agent_history ∧
        (handle_crisis_escalation st ctype cdata cb n1).1.current_agent = st.current_agent ∧
        (handle_crisis_escalation st ctype cdata cb n1).2.1
          = "Crisis intervention agent already active and handling the situation.") ∧
      (st.agents.contains "crisis_intervention" = true →
        (handle_crisis_escalation st ctype cdata cb n1).1.current_agent
          = "crisis_intervention" ∧
        (handle_crisis_escalation
            (handle_crisis_escalation st ctype cdata cb n1).1 ctype cdata cb n2).1.agent_history
          = (handle_crisis_escalation st ctype cdata cb n1).1.agent_history ∧
        (handle_crisis_escalation st ctype cdata cb n1).1.agent_history.length
          = st.agent_history.length
            + (if st.current_agent == "crisis_intervention" then 0 else 1) ∧
        (handle_crisis_escalation
            (handle_crisis_escalation st ctype cdata cb n1).1 ctype cdata cb n2).2.1
          = "Crisis intervention agent already active and handling the situation.") := by
  intro st ctype cdata cb n1 n2
  refine ⟨handle_crisis_escalation_sets_crisis_active st ctype cdata cb n1,
    handle_crisis_escalation_sets_crisis_active _ ctype cdata cb n2, ?_, ?_⟩
  · intro hcur
    have hfirst :
        handle_crisis_escalation st ctype cdata cb n1
          = ({ st with clinical_state :=
                { st.clinical_state with
                  crisis_active := true
                  crisis_type := some ctype
                  crisis_data := some cdata
                  crisis_timestamp := some n1 } },
             "Crisis intervention agent already active and handling the situation.",
             []) := by
      unfold handle_crisis_escalation
      simp [hcur]
    rw [hfirst]
    exact ⟨rfl, rfl, rfl⟩
  · intro hmem
    by_cases hcur : st.current_agent = "crisis_intervention"
    · have hfirst :
          handle_crisis_escalation st ctype cdata cb n1
            = ({ st with clinical_state :=
                  { st.clinical_state with
                    crisis_active := true
                    crisis_type := some ctype
                    crisis_data := some cdata
                    crisis_timestamp := some n1 } },
               "Crisis intervention agent already active and handling the situation.",
               []) := by
        unfold handle_crisis_escalation
        simp [hcur]
      rw [hfirst]
      refine ⟨hcur, ?_, by simp [hcur], ?_⟩
      · unfold handle_crisis_escalation
        simp [hcur]
      · unfold handle_crisis_escalation
        simp [hcur]
    · have hcc : (st.current_agent == "crisis_intervention") = false := by
        simp only [beq_eq_false_iff_ne, ne_eq]
        exact hcur
      have hc2 : ("crisis_intervention" == st.current_agent) = false := by
        simp only [beq_eq_false_iff_ne, ne_eq]
        exact fun h => hcur h.symm
      have hfirst :
          handle_crisis_escalation st ctype cdata cb n1
            = switch_agent
                { st with clinical_state :=
                    { st.clinical_state with
                      crisis_active := true
                      crisis_type := some ctype
                      crisis_data := some cdata
                      crisis_timestamp := some n1 } }
                "crisis_intervention" ("Crisis escalation: " ++ ctype)
                (some st.cultural_context) cb n1 := by
        unfold handle_crisis_escalation
        simp [hcc]
      have hsw :=
        switch_agent_success
          { st with clinical_state :=
              { st.clinical_state with
                crisis_active := true
                crisis_type := some ctype
                crisis_data := some cdata
                crisis_timestamp := some n1 } }
          "crisis_intervention" ("Crisis escalation: " ++ ctype)
          (some st.cultural_context) cb n1 hmem hc2
      rw [hfirst, hsw]
      refine ⟨rfl, ?_, by simp [hcc], ?_⟩
      · unfold handle_crisis_escalation
        simp
      · unfold handle_crisis_escalation
        simp

/-- Witness for C3 at a concrete input: escalating twice from `mgrDemo`
(general agent active, crisis agent registered). -/
theorem C3_witness :
    mgrDemo.agents.contains "crisis_intervention" = true ∧
    ((handle_crisis_escalation mgrDemo "suicide_risk" [] CbMode.ok "t1").1.clinical_state.crisis_active
      = true) ∧
    ((handle_crisis_escalation mgrDemo "suicide_risk" [] CbMode.ok "t1").1.current_agent
      = "crisis_intervention" ∧
     (handle_crisis_escalation
        (handle_crisis_escalation mgrDemo "suicide_risk" [] CbMode.ok "t1").1
        "suicide_risk" [] CbMode.ok "t2").1.agent_history
      = (handle_crisis_escalation mgrDemo "suicide_risk" [] CbMode.ok "t1").1.agent_history ∧
     (handle_crisis_escalation mgrDemo "suicide_risk" [] CbMode.ok "t1").1.agent_history.length
      = mgrDemo.agent_history.length
        + (if mgrDemo.current_agent == "crisis_intervention" then 0 else 1) ∧
     (handle_crisis_escalation
        (handle_crisis_escalation mgrDemo "suicide_risk" [] CbMode.ok "t1").1
        "suicide_risk" [] CbMode.ok "t2").2.1
      = "Crisis intervention agent already active and handling the situation.") :=
  ⟨by decide,
   (C3_crisis_escalation_idempotent mgrDemo "suicide_risk" [] CbMode.ok "t1" "t2").1,
   (C3_crisis_escalation_idempotent mgrDemo "suicide_risk" [] CbMode.ok "t1" "t2").2.2.2
     (by decide)⟩

/-- C7, original statement, refuted: the text `I'm so anxious` contains none
of the registered anxiety keywords (the table holds `anxiety`, not
`anxious`), so the heuristic recommends the general persona — not the CBT
persona (crisis inactive) and not the crisis persona (crisis active). -/
theorem C7_counterexample :
    get_recommended_agent (some "I\x27m so anxious") { crisis_active := false }
      = "general_therapy" ∧
    get_recommended_agent (some "I\x27m so anxious") { crisis_active := true }
      = "general_therapy" ∧
    get_recommended_agent (some "I\x27m so anxious") { crisis_active := false }
      ≠ "cbt_specialist" ∧
    get_recommended_agent (some "I\x27m so anxious") { crisis_active := true }
      ≠ "crisis_intervention" := by
  decide

/-- C7 as amended: `I want to kill myself` recommends the crisis persona; a
text containing a registered anxiety keyword (`I feel so much anxiety`)
recommends the CBT persona when `crisis_active` is false and the crisis
persona when it is true; `I'm so anxious` contains no registered anxiety
keyword and recommends the general persona; empty or `None` input recommends
the general persona without error. -/
theorem C7_recommendation_heuristic_amended :
    get_recommended_agent (some "I want to kill myself") { crisis_active := false }
      = "crisis_intervention" ∧
    get_recommended_agent (some "I feel so much anxiety") { crisis_active := false }
      = "cbt_specialist" ∧
    get_recommended_agent (some "I feel so much anxiety") { crisis_active := true }
      = "crisis_intervention" ∧
    get_recommended_agent (some "I\x27m so anxious") { crisis_active := false }
      = "general_therapy" ∧
    get_recommended_agent (some "") { crisis_active := false } = "general_therapy" ∧
    get_recommended_agent none { crisis_active := false } = "general_therapy" := by
  decide

end OmaniTherapist
